import Mathlib

/-!
Verification of the VM2030 bridge controller (`controller.py`, `v2_controller.py`)
against its natural-language specification.

Bytes are modelled as `Nat` values below 256, byte strings as `List Nat`.
Machine integers never overflow in the modelled code (CRC registers stay
below 2^16 by construction), so plain `Nat` arithmetic with explicit masks
matches the Python semantics.
-/

namespace Vm2030


/-- A byte string, as produced/consumed by the Python code (`bytes`). -/
abbrev Bytes := List Nat

/-! ## Modbus CRC (`controller.py`, `calculate_crc`) -/

/-- One shift round of the CRC loop: `if crc & 0x0001: crc >>= 1; crc ^= 0xA001
else: crc >>= 1`. -/
def crcRound (crc : Nat) : Nat :=
  if crc % 2 = 1 then (crc / 2) ^^^ 0xA001 else crc / 2

/-- Fold one input byte into the CRC register: `crc ^= pos` followed by eight
shift rounds. -/
def crcByte (crc b : Nat) : Nat :=
  (List.range 8).foldl (fun c _ => crcRound c) (crc ^^^ b)

/-- `calculate_crc(data)` from `controller.py`: CRC16 with polynomial 0xA001 and
initial value 0xFFFF, emitted as two bytes little-endian
(`crc.to_bytes(2, byteorder="little")`). -/
def calculate_crc (data : Bytes) : Bytes :=
  let crc := data.foldl crcByte 0xFFFF
  [crc % 256, crc / 256 % 256]

/-! ## Even-before-CR framing rule

`controller.py` and `v2_controller.py` both define `ensure_even_before_cr`,
with the same docstring (insert LF before the final CR when the total length
is odd) but different bodies.  Both bodies are translated literally here;
`payload.endswith(b"\r\n")` is expressed by matching the reversed list
against `10 :: 13 :: coreRev` (CR = 13, LF = 10), and `payload[:-k]` is
`coreRev.reverse`.  The Python slice `b"\r\n"[-2:]` equals `b"\r\n"` and
`b"\n\r\n"[-2:]` equals `b"\r\n"`; the slices are written out below. -/

namespace Controller

/-- `ensure_even_before_cr` as written in `controller.py`: the odd-length
CRLF branch returns `core + b"\r\n"[-2:]` = `core + b"\r\n"` and the
odd-length CR branch returns `core + b"\r"`. -/
def ensure_even_before_cr (payload : Bytes) : Bytes :=
  match payload.reverse with
  | [] => payload
  | 10 :: 13 :: coreRev =>
      if (coreRev.length + 2) % 2 = 1 then coreRev.reverse ++ [13, 10] else payload
  | 13 :: coreRev =>
      if (coreRev.length + 1) % 2 = 1 then coreRev.reverse ++ [13] else payload
  | _ => payload

end Controller

namespace V2

/-- `ensure_even_before_cr` as written in `v2_controller.py`: the odd-length
CRLF branch returns `core + b"\n\r\n"[-2:]` = `core + b"\r\n"` and the
odd-length CR branch returns `core + b"\n\r"` (an LF inserted before the CR). -/
def ensure_even_before_cr (payload : Bytes) : Bytes :=
  match payload.reverse with
  | [] => payload
  | 10 :: 13 :: coreRev =>
      if (coreRev.length + 2) % 2 = 1 then coreRev.reverse ++ [13, 10] else payload
  | 13 :: coreRev =>
      if (coreRev.length + 1) % 2 = 1 then coreRev.reverse ++ [10, 13] else payload
  | _ => payload

end V2

/-! ## ASCII/HEX token encoder (`controller.py`, `encode_ascii_with_tokens`)

Strings are modelled as `List Char`.  The Python scan at index `i` either
copies one UTF-8 encoded character or, at `<`, searches for the next `>`;
when found, the text between the brackets is stripped, uppercased and
resolved (named token, `0xNN`, `dNNN`, or emitted literally as `<token>`);
a `dNNN` value above 255 raises `ValueError`, modelled as `Except.error`.
When no `>` remains, the `<` is emitted literally and the scan continues at
the next character; since no later `<` can find a `>` either, every
remaining character is then emitted literally.

The recursion is structural on an explicit fuel equal to the remaining
length; the fuel is never exhausted because the continuation after a token
is a strict suffix of the input (`splitAtGt_length`). -/

/-- Python whitespace, as stripped by `str.strip()` / matched by `\s`. -/
def pyIsSpace (c : Char) : Bool :=
  c = ' ' || c = '\t' || c = '\n' || c = '\r' || c.toNat = 11 || c.toNat = 12

/-- `str.strip()`: drop whitespace from both ends. -/
def pyStrip (l : List Char) : List Char :=
  ((l.dropWhile pyIsSpace).reverse.dropWhile pyIsSpace).reverse

/-- UTF-8 encoding of one character (`ch.encode("utf-8")`; Lean `Char` has no
surrogates, so the Python replacement branch cannot trigger). -/
def utf8Char (c : Char) : Bytes :=
  let p := c.toNat
  if p < 0x80 then [p]
  else if p < 0x800 then [0xC0 + p / 64, 0x80 + p % 64]
  else if p < 0x10000 then [0xE0 + p / 4096, 0x80 + p / 64 % 64, 0x80 + p % 64]
  else [0xF0 + p / 262144, 0x80 + p / 4096 % 64, 0x80 + p / 64 % 64, 0x80 + p % 64]

/-- UTF-8 encoding of a plain character sequence. -/
def plainBytes (l : List Char) : Bytes := (l.map utf8Char).flatten

/-- `_TOKEN_MAP` from `controller.py`. -/
def tokenMap : List (List Char × Bytes) :=
  [("CR".toList, [13]), ("LF".toList, [10]), ("CRLF".toList, [13, 10]),
   ("TAB".toList, [9]), ("ESC".toList, [0x1B]), ("STX".toList, [2]),
   ("ETX".toList, [3]), ("NUL".toList, [0]), ("SP".toList, [32])]

/-- Value of an uppercase hexadecimal digit (`[0-9A-F]`). -/
def hexVal (c : Char) : Option Nat :=
  if '0' ≤ c ∧ c ≤ '9' then some (c.toNat - 48)
  else if 'A' ≤ c ∧ c ≤ 'F' then some (c.toNat - 55)
  else none

/-- `re.fullmatch(r"0X[0-9A-F]{2}", up)`. -/
def isHexToken (up : List Char) : Bool :=
  match up with
  | ['0', 'X', a, b] => (hexVal a).isSome && (hexVal b).isSome
  | _ => false

/-- Byte value of a matched `0xNN` token. -/
def hexTokenVal (up : List Char) : Nat :=
  match up with
  | ['0', 'X', a, b] => 16 * (hexVal a).getD 0 + (hexVal b).getD 0
  | _ => 0

/-- ASCII decimal digit test. -/
def isDigitCh (c : Char) : Bool := '0' ≤ c ∧ c ≤ '9'

/-- `re.fullmatch(r"D\d{1,3}", up)`. -/
def isDecToken (up : List Char) : Bool :=
  match up with
  | 'D' :: ds => decide (ds ≠ []) && decide (ds.length ≤ 3) && ds.all isDigitCh
  | _ => false

/-- Numeric value of the digits of a matched `dNNN` token. -/
def decTokenVal (up : List Char) : Nat :=
  match up with
  | 'D' :: ds => ds.foldl (fun acc c => 10 * acc + (c.toNat - 48)) 0
  | _ => 0

/-- Resolve one bracketed token (already stripped): named token, `0xNN` byte,
`dNNN` byte (raising for values above 255), or the literal `<token>`. -/
def tokenEncode (token : List Char) : Except String Bytes :=
  let up := token.map Char.toUpper
  match tokenMap.find? (fun kv => kv.1 = up) with
  | some kv => .ok kv.2
  | none =>
      if isHexToken up then .ok [hexTokenVal up]
      else if isDecToken up then
        if decTokenVal up ≤ 255 then .ok [decTokenVal up]
        else .error ("dec token out of range: <" ++ String.mk token ++ ">")
      else .ok (plainBytes ('<' :: token ++ ['>']))

/-- `text.find(">", i+1)`: split the remainder at the first `>`, returning the
token text and the continuation, or `none` when no `>` remains. -/
def splitAtGt : List Char → Option (List Char × List Char)
  | [] => none
  | c :: cs =>
      if c = '>' then some ([], cs)
      else (splitAtGt cs).map (fun p => (c :: p.1, p.2))

/-- The encoder scan with explicit fuel (one unit per consumed character). -/
def encN : Nat → List Char → Except String Bytes
  | _, [] => .ok []
  | 0, _ :: _ => .ok []
  | fuel + 1, c :: rest =>
      if c = '<' then
        match splitAtGt rest with
        | none => .ok (utf8Char '<' ++ plainBytes rest)
        | some (tok, after) =>
            match tokenEncode (pyStrip tok) with
            | .error e => .error e
            | .ok tb =>
                match encN fuel after with
                | .error e => .error e
                | .ok tl => .ok (tb ++ tl)
      else
        match encN fuel rest with
        | .error e => .error e
        | .ok tl => .ok (utf8Char c ++ tl)

/-- `encode_ascii_with_tokens(text)` from `controller.py`. -/
def encode_ascii_with_tokens (text : List Char) : Except String Bytes :=
  encN text.length text

/-! ## Decimal formatting

Python's `str(int(v))` and `f"{v:.1f}"` on the command parameters.  The
controller only ever formats values that are exact multiples of 0.1 (the
device protocol is one-decimal), so floats are modelled as an exact count of
tenths (`Int`); `f"{v:.1f}"` of `t` tenths is the decimal string `t/10` with
one digit after the point, which is what CPython prints for every such
value. -/

/-- Decimal digit character. -/
def digitChar (d : Nat) : Char :=
  match d with
  | 0 => '0' | 1 => '1' | 2 => '2' | 3 => '3' | 4 => '4'
  | 5 => '5' | 6 => '6' | 7 => '7' | 8 => '8' | 9 => '9'
  | _ => '?'

/-- Decimal digits of a natural number, most significant first; structural on
a fuel that is never exhausted for `fuel ≥ n + 1`. -/
def natDigitsAux : Nat → Nat → List Char
  | 0, _ => []
  | fuel + 1, n =>
      if n < 10 then [digitChar n]
      else natDigitsAux fuel (n / 10) ++ [digitChar (n % 10)]

/-- `str(n)` for a natural number. -/
def natStr (n : Nat) : List Char := natDigitsAux (n + 1) n

/-- `str(i)` for a Python int. -/
def intStr (i : Int) : List Char :=
  if i < 0 then '-' :: natStr i.natAbs else natStr i.natAbs

/-- `f"{v:.1f}"` for `v` given as an exact count of tenths. -/
def fmt1 (tenths : Int) : List Char :=
  (if tenths < 0 then ['-'] else []) ++
    natStr (tenths.natAbs / 10) ++ ['.', digitChar (tenths.natAbs % 10)]

/-- `f"{n:03d}"`: zero-pad to at least three digits. -/
def zfill3 (n : Nat) : List Char :=
  let s := natStr n
  List.replicate (3 - s.length) '0' ++ s

/-! ## VM2030 command builders (`controller.py`) -/

namespace Controller

/-- `sc_build_home()`: `%H<CR>`. -/
def sc_build_home : Except String Bytes :=
  (encode_ascii_with_tokens "%H<CR>".toList).map ensure_even_before_cr

/-- `sc_build_reset()`: the single byte `0x1D`, no CR. -/
def sc_build_reset : Except String Bytes :=
  encode_ascii_with_tokens "<0x1D>".toList

/-- `sc_build_set_sequence(seq_index, cmd_string)`. -/
def sc_build_set_sequence (seq_index : Int) (cmd_string : List Char) :
    Except String Bytes :=
  (encode_ascii_with_tokens
      ("%S".toList ++ intStr seq_index ++ ['_'] ++ cmd_string ++ "<CR>".toList)).map
    ensure_even_before_cr

/-- `sc_build_start_job(job_index)`: `%J{index}_N<CR>`. -/
def sc_build_start_job (job_index : Int) : Except String Bytes :=
  (encode_ascii_with_tokens
      ("%J".toList ++ intStr job_index ++ "_N<CR>".toList)).map ensure_even_before_cr

/-- `sc_build_start_sequence(seq_index)`: `%S{index}_N<CR>`. -/
def sc_build_start_sequence (seq_index : Int) : Except String Bytes :=
  (encode_ascii_with_tokens
      ("%S".toList ++ intStr seq_index ++ "_N<CR>".toList)).map ensure_even_before_cr

/-- `sc_build_get_job_info(job_index)`: `%J{index}_B<CR>`. -/
def sc_build_get_job_info (job_index : Int) : Except String Bytes :=
  (encode_ascii_with_tokens
      ("%J".toList ++ intStr job_index ++ "_B<CR>".toList)).map ensure_even_before_cr

/-- `sc_build_toggle_echo(echo_enabled)`: `%E_{0|1}<CR>`. -/
def sc_build_toggle_echo (echo_enabled : Bool) : Except String Bytes :=
  (encode_ascii_with_tokens
      ("%E_".toList ++ [if echo_enabled then '1' else '0'] ++ "<CR>".toList)).map
    ensure_even_before_cr

/-- `build_move_axis_command(axis, value)`: validates the axis and range, then
builds `%P_{axis}{value:.1f}<CR>`; out-of-range raises `ValueError`, modelled
as `Except.error` with the exception message.  `value` is given in exact
tenths (X range −80.0‥80.0 is −800‥800 tenths, Y −30.0‥30.0 is −300‥300). -/
def build_move_axis_command (axis : List Char) (tenths : Int) :
    Except String Bytes :=
  let axisU := axis.map Char.toUpper
  if axisU ≠ "X".toList ∧ axisU ≠ "Y".toList then
    .error "Axis must be 'X' or 'Y'"
  else if axisU = "X".toList ∧ ¬(-800 ≤ tenths ∧ tenths ≤ 800) then
    .error "X value out of range (-80.0~80.0)"
  else if axisU = "Y".toList ∧ ¬(-300 ≤ tenths ∧ tenths ≤ 300) then
    .error "Y value out of range (-30.0~30.0)"
  else
    (encode_ascii_with_tokens
        ("%P_".toList ++ axisU ++ fmt1 tenths ++ "<CR>".toList)).map
      ensure_even_before_cr

end Controller

/-! ## Modbus relay writes (`controller.py`, `control_single_relay` /
`control_multi_relays`)

The BOARD_RELAY serial handle and the `dry_run` configuration flag are
modelled by a `RelayBus` value.  A write appends the frame to `written`; a
read takes the next element of `responses` (each element is the echo
obtained by the `ser.read(8)` *including* the immediate re-read tie-break
that Python performs when the first read is empty), yielding `[]` when the
device stays silent.  The `except` branches (serial transport exceptions)
are outside the model: the environment always returns some byte string. -/

structure RelayBus where
  connected : Bool
  dryRun : Bool
  responses : List Bytes
  written : List Bytes := []
  deriving Repr

/-- Result dictionary of the relay write functions (`ok`, `error`,
`dry_run`); the `detail` payload carries no information used by callers and
is omitted. -/
structure RelayResult where
  ok : Bool
  error : Option String := none
  dryRun : Bool := false
  deriving Repr

/-- `ser.write(bytearray(frame))`. -/
def writeFrame (rb : RelayBus) (frame : Bytes) : RelayBus :=
  { rb with written := rb.written ++ [frame] }

/-- `ser.read(8)` with the empty-read re-read folded into the stream. -/
def readEcho (rb : RelayBus) : Bytes × RelayBus :=
  match rb.responses with
  | [] => ([], rb)
  | r :: rest => (r, { rb with responses := rest })

/-- `resp[-2:] == calculate_crc(resp[:-2])`. -/
def crcOk (resp : Bytes) : Bool :=
  resp.drop (resp.length - 2) = calculate_crc (resp.dropLast.dropLast)

/-- Uppercase hexadecimal digit character. -/
def hexDigit (d : Nat) : Char :=
  if d < 10 then digitChar d else Char.ofNat (55 + d)

/-- `f"0x{n:02X}"`. -/
def hex02X (n : Nat) : String :=
  String.mk ['0', 'x', hexDigit (n / 16 % 16), hexDigit (n % 16)]

/-- `str(n)` as a `String`. -/
def natS (n : Nat) : String := String.mk (natStr n)

/-- `ex_map` from `control_single_relay`. -/
def ex_map : List (Nat × String) :=
  [(0x01, "Illegal Function"), (0x02, "Illegal Data Address"),
   (0x03, "Illegal Data Value"), (0x04, "Slave Device Failure"),
   (0x05, "Acknowledge"), (0x06, "Slave Device Busy"),
   (0x07, "Negative Acknowledge"), (0x08, "Memory Parity Error")]

/-- `ex_map.get(ex_code, f"0x{ex_code:02X}")`. -/
def exName (code : Nat) : String :=
  ((ex_map.find? (fun kv => kv.1 = code)).map Prod.snd).getD (hex02X code)

/-- The `for attempt in range(retries + 1)` loop of `control_single_relay`;
the argument counts the attempts still allowed (`attempt < retries` is
`1 ≤ n` for the `n + 1` attempt at hand).  Every branch of the final
attempt returns, so the fuel-0 case is unreachable. -/
def scrLoop (slave relay_addr : Nat) (frame : Bytes) :
    Nat → RelayBus → RelayResult × RelayBus
  | 0, rb => ({ ok := false }, rb)
  | n + 1, rb =>
      let rb1 := writeFrame rb frame
      let (resp, rb2) := readEcho rb1
      if 5 ≤ resp.length ∧ resp.getD 1 0 &&& 0x80 ≠ 0 then
        let ex_resp := resp.take 5
        if ¬ crcOk ex_resp then
          if 1 ≤ n then scrLoop slave relay_addr frame n rb2
          else ({ ok := false, error := some "CRC sai (exception)" }, rb2)
        else
          let ex_code := ex_resp.getD 2 0
          ({ ok := false,
             error := some ("Modbus exception: " ++ exName ex_code ++ " (" ++
               natS ex_code ++ ")") }, rb2)
      else if resp.length = 8 then
        if ¬ crcOk resp then
          if 1 ≤ n then scrLoop slave relay_addr frame n rb2
          else ({ ok := false, error := some "CRC sai (FC16)" }, rb2)
        else if resp.getD 0 0 = slave ∧ resp.getD 1 0 = 0x10 ∧
            resp.getD 2 0 = 0 ∧ resp.getD 3 0 = relay_addr ∧
            resp.getD 4 0 = 0 ∧ resp.getD 5 0 = 1 then
          ({ ok := true }, rb2)
        else ({ ok := false, error := some "Echo không khớp" }, rb2)
      else if 1 ≤ n then scrLoop slave relay_addr frame n rb2
      else ({ ok := false,
              error := some ("Độ dài phản hồi bất thường (" ++
                natS resp.length ++ " bytes)") }, rb2)

/-- `control_single_relay(slave_id, relay_addr, state_value, retries=2)`:
FC16 write of one register; `relay_addr` must be 1..12. -/
def control_single_relay (rb : RelayBus) (slave relay_addr state_value : Nat)
    (retries : Nat := 2) : RelayResult × RelayBus :=
  if ¬ (1 ≤ relay_addr ∧ relay_addr ≤ 12) then
    ({ ok := false, error := some "Địa chỉ relay phải 1..12" }, rb)
  else if ¬ rb.connected ∧ rb.dryRun then
    ({ ok := true, dryRun := true }, rb)
  else if ¬ rb.connected then
    ({ ok := false, error := some "Serial connection not available" }, rb)
  else
    let base := [slave, 0x10, 0x00, relay_addr, 0x00, 0x01, 0x02, state_value, 0x00]
    scrLoop slave relay_addr (base ++ calculate_crc base) (retries + 1) rb

/-- Per-register payload of `control_multi_relays`: `[code, 0x00]` for each
code, failing with the first code outside `(1,2,3,4,5)`. -/
def multiData : List Nat → Except Nat Bytes
  | [] => .ok []
  | c :: cs =>
      if c = 1 ∨ c = 2 ∨ c = 3 ∨ c = 4 ∨ c = 5 then
        (multiData cs).map (fun d => [c, 0x00] ++ d)
      else .error c

/-- The attempt loop of `control_multi_relays` (no exception-response branch
in the source). -/
def cmrLoop (slave start qty : Nat) (frame : Bytes) :
    Nat → RelayBus → RelayResult × RelayBus
  | 0, rb => ({ ok := false }, rb)
  | n + 1, rb =>
      let rb1 := writeFrame rb frame
      let (resp, rb2) := readEcho rb1
      if resp.length = 8 then
        if ¬ crcOk resp then
          if 1 ≤ n then cmrLoop slave start qty frame n rb2
          else ({ ok := false, error := some "CRC sai (FC16 echo)" }, rb2)
        else if resp.getD 0 0 = slave ∧ resp.getD 1 0 = 0x10 ∧
            resp.getD 2 0 = 0 ∧ resp.getD 3 0 = start ∧
            resp.getD 4 0 = 0 ∧ resp.getD 5 0 = qty then
          ({ ok := true }, rb2)
        else ({ ok := false, error := some "Echo không khớp" }, rb2)
      else if 1 ≤ n then cmrLoop slave start qty frame n rb2
      else ({ ok := false,
              error := some ("Độ dài phản hồi bất thường (" ++
                natS resp.length ++ " bytes)") }, rb2)

/-- `control_multi_relays(slave_id, start_relay_addr, state_codes,
retries=2)`: FC16 write of consecutive registers starting at
`start_relay_addr` (1..12, span at most channel 12), one `[code, 0x00]`
pair per register, codes in 1..5. -/
def control_multi_relays (rb : RelayBus) (slave start : Nat)
    (state_codes : List Nat) (retries : Nat := 2) : RelayResult × RelayBus :=
  if ¬ (1 ≤ start ∧ start ≤ 12) then
    ({ ok := false, error := some "Địa chỉ bắt đầu phải 1..12" }, rb)
  else if state_codes.length < 1 ∨ start + state_codes.length - 1 > 12 then
    ({ ok := false, error := some "Số lượng vượt quá 12 kênh" }, rb)
  else if ¬ rb.connected ∧ rb.dryRun then
    ({ ok := true, dryRun := true }, rb)
  else if ¬ rb.connected then
    ({ ok := false, error := some "Serial connection not available" }, rb)
  else
    let qty := state_codes.length
    match multiData state_codes with
    | .error c =>
        ({ ok := false, error := some ("Mã lệnh không hợp lệ: " ++ natS c) }, rb)
    | .ok data =>
        let base := [slave, 0x10, 0x00, start, 0x00, qty, qty * 2] ++ data
        cmrLoop slave start qty (base ++ calculate_crc base) (retries + 1) rb

/-! ## Relay choreography and operation execution (`_relay_on`,
`_relay_side_effects_on_send`, `_relay_side_effects_on_complete`,
`exec_sc_operation`)

The BOARD_RELAY slave id (`dev.get("slave_id", 1)`) is passed explicitly.
The 1-second timer that `_relay_side_effects_on_complete` arms to turn R3
back off fires after the operation's reply has been produced; it is modelled
as a `r3OffTimer` flag on the outcome, not as a frame in the write log. -/

/-- `_relay_on(relay, on)`: single-register write, 1 = ON, 2 = OFF. -/
def _relay_on (rb : RelayBus) (slave relay : Nat) (turnOn : Bool) :
    RelayResult × RelayBus :=
  control_single_relay rb slave relay (if turnOn then 1 else 2)

/-- `_relay_side_effects_on_send()`: clear the error list, turn R2 (DOING) on,
and record a failure message if the write failed. -/
def _relay_side_effects_on_send (rb : RelayBus) (slave : Nat) :
    List String × RelayBus :=
  let (res, rb') := _relay_on rb slave 2 true
  ((if res.ok then []
    else ["Failed to turn on DOING relay: " ++ res.error.getD "Unknown error"]), rb')

/-- `_relay_side_effects_on_complete()`: one FC16 frame `{R2=OFF, R3=ON}`
(`control_multi_relays(slave, 2, [2, 1])`), recording a failure message;
the deferred R3-OFF write is armed by the caller-visible timer flag. -/
def _relay_side_effects_on_complete (rb : RelayBus) (slave : Nat) :
    List String × RelayBus :=
  let (res, rb') := control_multi_relays rb slave 2 [2, 1]
  ((if res.ok then []
    else ["R2 OFF + R3 ON (simul) failed: " ++ res.error.getD "None"]), rb')

/-- Environment of one `exec_sc_operation` call: the SOFTWARE_COMMAND dry-run
flag, the configured `ui_op_timeout_ms`, and the outcome of
`sc_wait_complete` — `waitCode = some c` when a completion code in the
expected set arrives before the deadline (in dry-run the simulated 0x1F),
`none` on timeout with `lastCodeAtTimeout` the last byte observed. -/
structure ScEnv where
  scDryRun : Bool
  uiTimeoutMs : Nat
  waitCode : Option Nat
  lastCodeAtTimeout : Option Nat

/-- Result dictionary of `exec_sc_operation` (`relay_errors` and
`has_relay_errors` are only set on success, matching the Python dict). -/
structure ExecResult where
  ok : Bool
  code : Option Nat := none
  note : Option String := none
  isTimeout : Bool := false
  lastCode : Option Nat := none
  timeoutMs : Nat := 0
  relay_errors : List String := []
  has_relay_errors : Bool := false

/-- Outcome of `exec_sc_operation`: the result dictionary, the relay bus
after the operation's writes, the frames handed to
`send_raw_to_software_command`, and whether the deferred R3-OFF timer was
armed. -/
structure ExecOut where
  result : ExecResult
  bus : RelayBus
  scTx : List Bytes
  r3OffTimer : Bool

/-- `exec_sc_operation(op_id, command, raw, source, meta, wait)`: relay
on-send, clear of the completion code, transmit, then either return
immediately (`wait=False`), wait for completion and run the on-complete
choreography (surfacing accumulated relay errors), or on timeout turn R2
off with no further relay activity. -/
def exec_sc_operation (env : ScEnv) (rb : RelayBus) (slave : Nat) (raw : Bytes)
    (wait : Bool := true) : ExecOut :=
  let sendStep := _relay_side_effects_on_send rb slave
  let errs1 := sendStep.1
  let rb1 := sendStep.2
  -- `_last_status_code` is cleared here; the RX state is modelled separately.
  let tx := [raw]
  if ¬ wait then
    { result := { ok := true, code := none, note := some "queued" },
      bus := rb1, scTx := tx, r3OffTimer := false }
  else
    match env.waitCode with
    | some c =>
        let doneStep := _relay_side_effects_on_complete rb1 slave
        let errs := errs1 ++ doneStep.1
        { result := { ok := true, code := some c, timeoutMs := env.uiTimeoutMs,
                      relay_errors := if errs.isEmpty then [] else errs,
                      has_relay_errors := ! errs.isEmpty },
          bus := doneStep.2, scTx := tx, r3OffTimer := true }
    | none =>
        let offStep := _relay_on rb1 slave 2 false
        { result := { ok := false, isTimeout := true,
                      lastCode := env.lastCodeAtTimeout,
                      timeoutMs := env.uiTimeoutMs },
          bus := offStep.2, scTx := tx, r3OffTimer := false }

/-! ## Relay register state

FC16 frames produced above are interpreted against a relay state
(`Nat → Bool`): action code 1 opens (ON) and 2 closes (OFF) each addressed
register; the remaining codes (TOGGLE/LATCH/MOMENTARY) never occur in the
controller's choreography and are left uninterpreted. -/

/-- Start register of an FC16 frame (`frame[3]`; `frame[2]` is always 0 for
channel addresses 1..12). -/
def frameAddr (f : Bytes) : Nat := f.getD 3 0

/-- Register count of an FC16 frame (`frame[5]`). -/
def frameQty (f : Bytes) : Nat := f.getD 5 0

/-- Does the frame write register `r`? -/
def frameTouches (f : Bytes) (r : Nat) : Bool :=
  frameAddr f ≤ r ∧ r < frameAddr f + frameQty f

/-- Apply one written frame to the relay state. -/
def applyFrame (st : Nat → Bool) (f : Bytes) : Nat → Bool := fun r =>
  if frameTouches f r then
    let c := f.getD (7 + 2 * (r - frameAddr f)) 0
    if c = 1 then true else if c = 2 then false else st r
  else st r

/-- Relay state after a sequence of written frames. -/
def relayStateAfter (st : Nat → Bool) (frames : List Bytes) : Nat → Bool :=
  frames.foldl applyFrame st

/-- The all-relays-off state. -/
def allOff : Nat → Bool := fun _ => false

/-- The FC16 frame written by `control_single_relay`. -/
def singleFrame (slave addr sv : Nat) : Bytes :=
  let base := [slave, 0x10, 0x00, addr, 0x00, 0x01, 0x02, sv, 0x00]
  base ++ calculate_crc base

/-! ## Marker RX state (`software_command_reader`, `sc_clear_rx`,
`sc_read_until_complete_collect`)

The reader thread classifies every received byte: completion codes
(0x1F, 0x87) are recorded as the last status code and never buffered; all
other bytes are appended to the RX buffer.  The collect call is modelled in
an untimed event semantics: the bytes that arrive before the deadline are a
list of events, the condition-variable wake-up after a completion byte is
immediate, and the deadline return drains whatever the reader buffered. -/

/-- Shared RX state: buffered data bytes and `_last_status_code`. -/
structure ScRxState where
  buffer : Bytes
  lastCode : Option Nat

/-- `sc_clear_rx()`: empty buffer, no status code. -/
def sc_clear_rx : ScRxState := { buffer := [], lastCode := none }

/-- The reader's completion classification (`code in [0x1F, 0x87]`). -/
def isCompletionByte (b : Nat) : Bool := b = 0x1F || b = 0x87

/-- One byte handled by `software_command_reader`. -/
def readerStep (st : ScRxState) (b : Nat) : ScRxState :=
  if isCompletionByte b then { st with lastCode := some b }
  else { st with buffer := st.buffer ++ [b] }

/-- The reader applied to a byte sequence. -/
def readerRun (st : ScRxState) (bs : Bytes) : ScRxState := bs.foldl readerStep st

/-- The waiting loop of `sc_read_until_complete_collect`: each arriving byte
is processed by the reader; the call returns the drained buffer as soon as
the recorded code equals 0x1F, or when the deadline passes (all events
consumed). -/
def collectLoop (st : ScRxState) : Bytes → Bytes
  | [] => st.buffer
  | b :: rest =>
      let st' := readerStep st b
      if st'.lastCode = some 0x1F then st'.buffer else collectLoop st' rest

/-- `sc_read_until_complete_collect(timeout_ms)`: a 0x1F recorded before
entry is honored immediately; otherwise wait for events until 0x1F or the
deadline. -/
def sc_read_until_complete_collect (st : ScRxState) (events : Bytes) : Bytes :=
  if st.lastCode = some 0x1F then st.buffer else collectLoop st events

/-! ## Request handling (`handle_envelope`)

Replies are the `_ok` / `_err` dictionaries.  The `Message` payload of a
success reply is modelled per command; `_sent_repr(raw)` is a printable
rendering of the raw frame, modelled by the frame itself. -/

/-- Reply structure of a `GET_JOB` success (`reply` dict built in the
handler).  Numeric fields are exact decimals (`ℚ`): every token the device
sends is a short decimal literal, which round-trips exactly through the
JSON reply. -/
structure GetJobReply where
  Id : String
  CreatedAt : String
  LastRunAt : String
  LastUpdated : String
  LastSyncedToDevice : String
  JobNumber : Int
  JobName : List Char
  CharacterString : List Char
  StartX : ℚ
  StartY : ℚ
  PitchX : ℚ
  PitchY : ℚ
  Size : ℚ
  Speed : Int
  Direction : Int

/-- Success-reply payloads of the handled commands. -/
inductive Message where
  | nothing
  | builtin (state : List Char) (sent : Bytes)
  | moveAxis (axis : List Char) (tenths : Int) (sent : Bytes)
  | setJob (id : String) (jobNumber : Nat) (sent : Bytes)
  | jobReply (j : GetJobReply)
  | seqSet (index : Int) (sent : Bytes)
  | seqStart (index : Int) (sent : Bytes)
  | echo (enabled : Bool) (sent : Bytes)
  | jobStart (index : Int) (sent : Bytes)

/-- The reply envelope `{CorrelationId, IsError, ErrorMessage, Message}`. -/
structure Reply where
  CorrelationId : String
  IsError : Bool
  ErrorMessage : String
  Message : Message

/-- `_ok(corr_id, message)`. -/
def _ok (corr_id : String) (message : Message) : Reply :=
  { CorrelationId := corr_id, IsError := false, ErrorMessage := "", Message := message }

/-- `_err(corr_id, msg)`. -/
def _err (corr_id : String) (msg : String) : Reply :=
  { CorrelationId := corr_id, IsError := true, ErrorMessage := msg, Message := .nothing }

/-- f-string rendering of `result.get("lastCode")`. -/
def optCodeS : Option Nat → String
  | none => "None"
  | some n => natS n

/-- The timeout error text `f"Timeout {timeoutMs} ms (lastCode={lastCode})"`. -/
def timeoutMsg (timeoutMs : Nat) (lastCode : Option Nat) : String :=
  "Timeout " ++ natS timeoutMs ++ " ms (lastCode=" ++ optCodeS lastCode ++ ")"

/-- `_ensure_sc_available_or_err`: an error reply when SOFTWARE_COMMAND has
no serial handle and is not in dry-run. -/
def _ensure_sc_available_or_err (env : ScEnv) (serCmdConnected : Bool)
    (message_id : String) : Option Reply :=
  if env.scDryRun then none
  else if ¬ serCmdConnected then
    some (_err message_id "SOFTWARE_COMMAND COM is not connected (dry_run=false)")
  else none

/-- The `BUILTIN_COMMAND` branch of `handle_envelope`: HOME (`rt_home`) or
RESET (`sw_reset`), executed synchronously; on success, accumulated relay
errors turn the reply into an error reply carrying the joined error list.
Returns the reply, the frames transmitted to the Marker, and the relay bus
afterwards. -/
def handle_builtin (env : ScEnv) (rb : RelayBus) (slave : Nat)
    (serCmdConnected : Bool) (message_id : String) (state : List Char) :
    Reply × List Bytes × RelayBus :=
  match _ensure_sc_available_or_err env serCmdConnected message_id with
  | some e => (e, [], rb)
  | none =>
    if state ≠ "rt_home".toList ∧ state ≠ "sw_reset".toList then
      (_err message_id ("Unknown builtin state '" ++ String.mk state ++ "'"), [], rb)
    else
      match (if state = "rt_home".toList then Controller.sc_build_home
             else Controller.sc_build_reset) with
      | .error e => (_err message_id ("BUILTIN_COMMAND error: " ++ e), [], rb)
      | .ok raw =>
          let out := exec_sc_operation env rb slave raw true
          if out.result.ok then
            if out.result.has_relay_errors then
              (_err message_id
                ("VM2030 operation succeeded but relay errors occurred: " ++
                  String.intercalate "; " out.result.relay_errors),
               out.scTx, out.bus)
            else (_ok message_id (.builtin state raw), out.scTx, out.bus)
          else
            (_err message_id (timeoutMsg out.result.timeoutMs out.result.lastCode),
             out.scTx, out.bus)

/-- The `MOVE_AXIS` branch of `handle_envelope`: the axis is validated, the
value (or its `distance` fallback) must be present and numeric
(`value = some none` models a present but non-numeric payload value), the
frame is built (raising out-of-range as a caught exception) and executed.
A success reply is returned whenever the Marker operation succeeded,
regardless of accumulated relay errors. -/
def handle_move_axis (env : ScEnv) (rb : RelayBus) (slave : Nat)
    (message_id : String) (axis : List Char) (value : Option (Option Int)) :
    Reply × List Bytes × RelayBus :=
  let axisU := axis.map Char.toUpper
  if axisU ≠ "X".toList ∧ axisU ≠ "Y".toList then
    (_err message_id "Axis must be 'X' or 'Y'", [], rb)
  else
    match value with
    | none => (_err message_id "Value is missing in the payload", [], rb)
    | some none =>
        (_err message_id "Value must be a number. Received: <non-numeric>", [], rb)
    | some (some tenths) =>
        match Controller.build_move_axis_command axisU tenths with
        | .error e => (_err message_id ("MOVE_AXIS error: " ++ e), [], rb)
        | .ok raw =>
            let out := exec_sc_operation env rb slave raw true
            if out.result.ok then
              (_ok message_id (.moveAxis axisU tenths raw), out.scTx, out.bus)
            else
              (_err message_id (timeoutMsg out.result.timeoutMs out.result.lastCode),
               out.scTx, out.bus)

/-! ## GET_JOB segment selection (`handle_envelope`, GET_JOB real branch)

The raw capture is split on 0x1F (`response.split(b"\x1F")`); each segment
is decoded with replacement (`seg.decode(errors="replace")` — device
payloads are ASCII, a lone byte ≥ 0x80 decodes to U+FFFD; valid multi-byte
UTF-8 sequences do not occur and are not modelled).  The body segment is the
first one containing the literal text `J 20` or more than ten underscores;
failing that, the segment at index 2.  (The Python guard `if not
body_segment` is also true for an empty matched string, but a matching
segment is necessarily non-empty.) -/

/-- `bytes.split(b"\x1F")`. -/
def splitOn31 : Bytes → List Bytes
  | [] => [[]]
  | b :: rest =>
      if b = 0x1F then [] :: splitOn31 rest
      else
        match splitOn31 rest with
        | [] => [[b]]
        | s :: ss => (b :: s) :: ss

/-- UTF-8 decode with replacement, restricted to single bytes. -/
def decodeByte (b : Nat) : Char := if b < 128 then Char.ofNat b else '�'

/-- Decoded text of one segment. -/
def decodeSeg (bs : Bytes) : List Char := bs.map decodeByte

/-- Python `needle in hay` on strings. -/
def containsSub (needle : List Char) : List Char → Bool
  | [] => decide (needle = [])
  | c :: rest => needle.isPrefixOf (c :: rest) || containsSub needle rest

/-- `s.count("_")`. -/
def countUnders (s : List Char) : Nat := (s.filter (fun c => c = '_')).length

/-- The body-segment choice of the GET_JOB branch: with at least three
segments, the first segment containing `J 20` or more than ten underscores,
else segment index 2; with fewer segments the branch fails. -/
def get_job_body_segment (response : Bytes) : Option (List Char) :=
  let segments := (splitOn31 response).map decodeSeg
  if 3 ≤ segments.length then
    match segments.find?
        (fun s => containsSub "J 20".toList s || decide (10 < countUnders s)) with
    | some s => some s
    | none => some (segments.getD 2 [])
  else none

/-- Does `%J\s*\d+\s*_B` match at this position? -/
def headerAt : List Char → Bool
  | '%' :: 'J' :: rest =>
      let r1 := rest.dropWhile pyIsSpace
      let ds := r1.takeWhile isDigitCh
      let r2 := (r1.dropWhile isDigitCh).dropWhile pyIsSpace
      decide (ds ≠ []) &&
        (match r2 with
         | '_' :: 'B' :: _ => true
         | _ => false)
  | _ => false

/-- `re.search(r"%J\s*\d+\s*_B", s)` as a Boolean. -/
def containsHeader : List Char → Bool
  | [] => false
  | c :: rest => headerAt (c :: rest) || containsHeader rest

/-- First segment with the maximal underscore count. -/
def argmaxUnders : List (List Char) → Option (List Char)
  | [] => none
  | s :: ss =>
      match argmaxUnders ss with
      | none => some s
      | some t => if countUnders t > countUnders s then some t else some s

/-- Modelled from the spec: the canonical GET_JOB body choice — "pick the
segment containing a `%J\s*\d+\s*_B` header, else the segment with the
largest underscore count" — stated for comparison with the code's
`get_job_body_segment`. -/
def spec_body_segment (response : Bytes) : Option (List Char) :=
  let segments := (splitOn31 response).map decodeSeg
  match segments.find? (fun s => containsHeader s) with
  | some s => some s
  | none => argmaxUnders segments

/-! ## Job store and SET_JOB / GET_JOB handling

The persisted store (`job_store.json`) maps job numbers to job records.  A
record freshly created by `_ensure_job_id`'s `setdefault(key, {})` carries
only an `Id`; absent dictionary fields are `Option`-valued (`Id` uses the
empty string as the falsy default, exactly as `job.get("Id")`).  Floats are
exact tenths (`Int`), as in the builders.  Randomness (`new_object_id`) and
clock reads (`_iso_now`) are environment parameters. -/

/-- A persisted job record. -/
structure StoredJob where
  Id : String := ""
  CreatedAt : Option String := none
  LastRunAt : Option String := none
  JobName : Option (List Char) := none
  CharacterString : Option (List Char) := none
  StartX : Option Int := none
  StartY : Option Int := none
  PitchX : Option Int := none
  PitchY : Option Int := none
  Size : Option Int := none
  Speed : Option Int := none
  Direction : Option Int := none
  rawTail : Option (List (List Char)) := none

/-- The `jobs` table of the store. -/
def Store := List (Nat × StoredJob)

/-- `store["jobs"].get(str(n))`. -/
def storeGet (s : Store) (n : Nat) : Option StoredJob :=
  (List.find? (fun kv => kv.1 = n) s).map Prod.snd

/-- `store["jobs"][str(n)] = j`. -/
def storePut (s : Store) (n : Nat) (j : StoredJob) : Store :=
  (n, j) :: List.filter (fun kv => ¬ kv.1 = n) s

/-- `_ensure_job_id(store, job_number)`: create the record if needed and
assign a fresh 24-hex id only when none is present. -/
def _ensure_job_id (s : Store) (n : Nat) (freshId : String) : String × Store :=
  match storeGet s n with
  | some j => if j.Id ≠ "" then (j.Id, s) else (freshId, storePut s n { j with Id := freshId })
  | none => (freshId, storePut s n { Id := freshId })

/-- `DEFAULT_JOB_TAIL`. -/
def DEFAULT_JOB_TAIL : List (List Char) :=
  ["0.1".toList, "0.0".toList, "0.0".toList, "<NUL>".toList, "<NUL>".toList,
   "<NUL>".toList, "0".toList, "0.0".toList, "0.0".toList, "0.0".toList,
   "0.0".toList, "0.0".toList, "0.0".toList, "N".toList, "1".toList,
   "\"\"".toList]

/-- `re.sub(r"\s+", " ", t)` (runs of whitespace become one space),
structural on the text with a previous-was-space flag. -/
def collapseWsAux : Bool → List Char → List Char
  | _, [] => []
  | prevSp, c :: rest =>
      if pyIsSpace c then
        (if prevSp then collapseWsAux true rest else ' ' :: collapseWsAux true rest)
      else c :: collapseWsAux false rest

/-- `_normalize_spaces(t)`: collapse whitespace runs and strip. -/
def _normalize_spaces (l : List Char) : List Char := pyStrip (collapseWsAux false l)

/-- The SET_JOB payload fields used by the builder and handler, with the
Python `payload.get(...)` defaults. -/
structure SetJobPayload where
  JobName : List Char := []
  CharacterString : List Char := []
  Size : Int := 10
  Direction : Int := 0
  Speed : Int := 100
  StartX : Int := 0
  StartY : Int := 0
  PitchX : Int := 0
  PitchY : Int := 0

/-- `build_vm2030_set_job_command(job_number, payload, cached_tail)`: the
underscore-joined body (seven formatted fields, the cached or default tail
minus its final `""` sentinel, then the cleaned character string suffixed
with `""`), wrapped as `%J{n:03d}_{body}<CR>`. -/
def build_vm2030_set_job_command (job_number : Nat) (payload : SetJobPayload)
    (cached_tail : Option (List (List Char))) : Except String Bytes :=
  let character := (_normalize_spaces payload.CharacterString).map
    (fun c => if c = '_' then ' ' else c)
  let tail := match cached_tail with
    | some t => if 0 < t.length then t else DEFAULT_JOB_TAIL
    | none => DEFAULT_JOB_TAIL
  let params :=
    [fmt1 payload.Size, intStr payload.Direction, intStr payload.Speed,
     fmt1 payload.StartX, fmt1 payload.StartY, fmt1 payload.PitchX,
     fmt1 payload.PitchY] ++ tail.dropLast ++ [character ++ "\"\"".toList]
  let body := List.intercalate "_".toList params
  (encode_ascii_with_tokens
      ("%J".toList ++ zfill3 job_number ++ "_".toList ++ body ++ "<CR>".toList)).map
    Controller.ensure_even_before_cr

/-- The `SET_JOB` branch of `handle_envelope`: availability and readiness
guards, frame build from the cached tail, id assignment, store update (all
before transmission), then synchronous execution.  `freshId` models
`new_object_id()`, `now` models `_iso_now()`. -/
def handle_set_job (env : ScEnv) (rb : RelayBus) (slave : Nat)
    (serCmdConnected ready : Bool) (freshId now : String) (store : Store)
    (message_id : String) (idx : Nat) (payload : SetJobPayload) :
    Reply × Store × List Bytes × RelayBus :=
  match _ensure_sc_available_or_err env serCmdConnected message_id with
  | some e => (e, store, [], rb)
  | none =>
    if ¬ ready then (_err message_id "NOT_READY", store, [], rb)
    else
      let cached_tail := (storeGet store idx).bind (fun j => j.rawTail)
      match build_vm2030_set_job_command idx payload cached_tail with
      | .error e => (_err message_id ("SET_JOB error: " ++ e), store, [], rb)
      | .ok raw =>
          let ens := _ensure_job_id store idx freshId
          let job_id := ens.1
          let store1 := ens.2
          let createdAt := ((storeGet store1 idx).bind (fun j => j.CreatedAt)).getD now
          let model : StoredJob :=
            { Id := job_id, CreatedAt := some createdAt, LastRunAt := some now,
              JobName := some payload.JobName,
              CharacterString := some ((_normalize_spaces payload.CharacterString).map
                (fun c => if c = '_' then ' ' else c)),
              StartX := some payload.StartX, StartY := some payload.StartY,
              PitchX := some payload.PitchX, PitchY := some payload.PitchY,
              Size := some payload.Size, Speed := some payload.Speed,
              Direction := some payload.Direction,
              rawTail := some (cached_tail.getD DEFAULT_JOB_TAIL) }
          let store2 := storePut store1 idx model
          let out := exec_sc_operation env rb slave raw true
          if out.result.ok then
            (_ok message_id (.setJob job_id idx raw), store2, out.scTx, out.bus)
          else
            (_err message_id (timeoutMsg out.result.timeoutMs out.result.lastCode),
             store2, out.scTx, out.bus)

/-- One stored sequence (`{"index", "commandString", "updatedAt"}`), keyed by
index. -/
def SeqStore := List (Int × (List Char × String))

/-- The `SET_SEQUENCE` branch of `handle_envelope`: requires a non-empty
(stripped) `commandString`, readiness and an available Marker; the sequence
record is persisted before the frame is built and executed.  A success reply
is returned whenever the Marker operation succeeded, regardless of
accumulated relay errors. -/
def handle_set_sequence (env : ScEnv) (rb : RelayBus) (slave : Nat)
    (serCmdConnected ready : Bool) (now : String) (seqStore : SeqStore)
    (message_id : String) (idx : Int) (commandString : List Char) :
    Reply × SeqStore × List Bytes × RelayBus :=
  let cmdstr := pyStrip commandString
  if cmdstr = [] then
    (_err message_id "payload.commandString is required", seqStore, [], rb)
  else if ¬ ready then (_err message_id "NOT_READY", seqStore, [], rb)
  else
    match _ensure_sc_available_or_err env serCmdConnected message_id with
    | some e => (e, seqStore, [], rb)
    | none =>
        let seqStore1 := (idx, (cmdstr, now)) ::
          List.filter (fun kv => ¬ kv.1 = idx) seqStore
        match Controller.sc_build_set_sequence idx cmdstr with
        | .error e => (_err message_id ("SET_SEQUENCE error: " ++ e), seqStore1, [], rb)
        | .ok raw =>
            let out := exec_sc_operation env rb slave raw true
            if out.result.ok then
              (_ok message_id (.seqSet idx raw), seqStore1, out.scTx, out.bus)
            else
              (_err message_id (timeoutMsg out.result.timeoutMs out.result.lastCode),
               seqStore1, out.scTx, out.bus)

/-- The `START_SEQUENCE` branch of `handle_envelope`: readiness and
availability guards, then `%S{index}_N<CR>` executed synchronously.  A
success reply is returned whenever the Marker operation succeeded,
regardless of accumulated relay errors. -/
def handle_start_sequence (env : ScEnv) (rb : RelayBus) (slave : Nat)
    (serCmdConnected ready : Bool) (message_id : String) (idx : Int) :
    Reply × List Bytes × RelayBus :=
  if ¬ ready then (_err message_id "NOT_READY", [], rb)
  else
    match _ensure_sc_available_or_err env serCmdConnected message_id with
    | some e => (e, [], rb)
    | none =>
        match Controller.sc_build_start_sequence idx with
        | .error e => (_err message_id ("START_SEQUENCE error: " ++ e), [], rb)
        | .ok raw =>
            let out := exec_sc_operation env rb slave raw true
            if out.result.ok then
              (_ok message_id (.seqStart idx raw), out.scTx, out.bus)
            else
              (_err message_id (timeoutMsg out.result.timeoutMs out.result.lastCode),
               out.scTx, out.bus)

/-- The `TOGGLE_ECHO` branch of `handle_envelope`: readiness and availability
guards, then `%E_{0|1}<CR>` executed synchronously.  A success reply is
returned whenever the Marker operation succeeded, regardless of accumulated
relay errors. -/
def handle_toggle_echo (env : ScEnv) (rb : RelayBus) (slave : Nat)
    (serCmdConnected ready : Bool) (message_id : String) (echo_enabled : Bool) :
    Reply × List Bytes × RelayBus :=
  if ¬ ready then (_err message_id "NOT_READY", [], rb)
  else
    match _ensure_sc_available_or_err env serCmdConnected message_id with
    | some e => (e, [], rb)
    | none =>
        match Controller.sc_build_toggle_echo echo_enabled with
        | .error e => (_err message_id ("TOGGLE_ECHO error: " ++ e), [], rb)
        | .ok raw =>
            let out := exec_sc_operation env rb slave raw true
            if out.result.ok then
              (_ok message_id (.echo echo_enabled raw), out.scTx, out.bus)
            else
              (_err message_id (timeoutMsg out.result.timeoutMs out.result.lastCode),
               out.scTx, out.bus)

/-- The `START_JOB` branch of `handle_envelope`: readiness and availability
guards, then `%J{index}_N<CR>` executed synchronously.  A success reply is
returned whenever the Marker operation succeeded, regardless of accumulated
relay errors. -/
def handle_start_job (env : ScEnv) (rb : RelayBus) (slave : Nat)
    (serCmdConnected ready : Bool) (message_id : String) (idx : Int) :
    Reply × List Bytes × RelayBus :=
  if ¬ ready then (_err message_id "NOT_READY", [], rb)
  else
    match _ensure_sc_available_or_err env serCmdConnected message_id with
    | some e => (e, [], rb)
    | none =>
        match Controller.sc_build_start_job idx with
        | .error e => (_err message_id ("START_JOB error: " ++ e), [], rb)
        | .ok raw =>
            let out := exec_sc_operation env rb slave raw true
            if out.result.ok then
              (_ok message_id (.jobStart idx raw), out.scTx, out.bus)
            else
              (_err message_id (timeoutMsg out.result.timeoutMs out.result.lastCode),
               out.scTx, out.bus)

/-! ## GET_JOB token parsing (real-device branch) -/

/-- Natural value of a digit string. -/
def digitsVal (ds : List Char) : Nat :=
  ds.foldl (fun a c => 10 * a + (c.toNat - 48)) 0

/-- `int(s)`: optional sign, at least one digit, nothing else (after
stripping); `int("2.0")` fails. -/
def pyInt (l : List Char) : Option Int :=
  let s := pyStrip l
  match s with
  | '-' :: ds => if ds ≠ [] ∧ ds.all isDigitCh then some (-(digitsVal ds : Int)) else none
  | '+' :: ds => if ds ≠ [] ∧ ds.all isDigitCh then some (digitsVal ds : Int) else none
  | ds => if ds ≠ [] ∧ ds.all isDigitCh then some (digitsVal ds : Int) else none

/-- `float(s)` for the plain decimal literals the device produces (optional
sign, digits with an optional fraction; exponent, inf and nan forms do not
occur and are not modelled).  The value is exact (`ℚ`). -/
def pyFloat (l : List Char) : Option ℚ :=
  let s := pyStrip l
  let core := fun (neg : Bool) (ds : List Char) =>
    let ip := ds.takeWhile isDigitCh
    let rest := ds.dropWhile isDigitCh
    let signed := fun (q : ℚ) => if neg then -q else q
    match rest with
    | [] => if ip ≠ [] then some (signed (digitsVal ip : ℚ)) else none
    | '.' :: fr =>
        let fp := fr.takeWhile isDigitCh
        let rest2 := fr.dropWhile isDigitCh
        if rest2 = [] ∧ ¬ (ip = [] ∧ fp = []) then
          some (signed ((digitsVal ip : ℚ) + (digitsVal fp : ℚ) / (10 : ℚ) ^ fp.length))
        else none
    | _ => none
  match s with
  | '-' :: ds => core true ds
  | '+' :: ds => core false ds
  | ds => core false ds

/-- `s.isdigit()` (restricted to ASCII digits). -/
def pyIsDigitStr (l : List Char) : Bool := decide (l ≠ []) && l.all isDigitCh

/-- `body.split("_")` with each token stripped. -/
def splitUnders : List Char → List (List Char)
  | [] => [[]]
  | c :: rest =>
      if c = '_' then [] :: splitUnders rest
      else
        match splitUnders rest with
        | [] => [[c]]
        | s :: ss => (c :: s) :: ss

/-- `float(get(i, "…")) if get(i) else 0.0`: absent or empty tokens give 0,
non-decimal tokens raise (caught by the branch's `except`). -/
def floatTok (tokens : List (List Char)) (i : Nat) : Except String ℚ :=
  match tokens.get? i with
  | none => .ok 0
  | some t =>
      if t = [] then .ok 0
      else
        match pyFloat t with
        | some q => .ok q
        | none => .error ("could not convert string to float: '" ++ String.mk t ++ "'")

/-- `int(get(i, "0")) if get(i) else 0`. -/
def intTok (tokens : List (List Char)) (i : Nat) : Except String Int :=
  match tokens.get? i with
  | none => .ok 0
  | some t =>
      if t = [] then .ok 0
      else
        match pyInt t with
        | some v => .ok v
        | none => .error ("invalid literal for int() with base 10: '" ++ String.mk t ++ "'")

/-- `int(get(2, "0")) if get(2) and get(2).isdigit() else 0`. -/
def dirTok (tokens : List (List Char)) : Int :=
  match tokens.get? 2 with
  | some t => if pyIsDigitStr t then (pyInt t).getD 0 else 0
  | none => 0

/-- Scaled-tenths value as an exact decimal. -/
def tenthsQ (t : Int) : ℚ := (t : ℚ) / 10

/-- The `GET_JOB` branch of `handle_envelope`.  In dry-run a fake reply is
built from the store (with a freshly generated `Id` and current
timestamps); against the real device, the captured `response` is split,
the body segment is chosen (`get_job_body_segment`), its underscore tokens
are parsed, and the reply again carries a freshly generated `Id`
(`fake_id`) and current timestamps.  The store is never modified and never
consulted for `Id` or `CreatedAt` outside dry-run field defaults. -/
def handle_get_job (env : ScEnv) (serCmdConnected : Bool) (freshId now : String)
    (store : Store) (message_id : String) (idx : Nat) (response : Bytes) : Reply :=
  match _ensure_sc_available_or_err env serCmdConnected message_id with
  | some e => e
  | none =>
    if env.scDryRun then
      let s_job := (storeGet store idx).getD {}
      _ok message_id (.jobReply
        { Id := freshId, CreatedAt := now, LastRunAt := now, LastUpdated := now,
          LastSyncedToDevice := now, JobNumber := (idx : Int),
          JobName := s_job.JobName.getD [],
          CharacterString := s_job.CharacterString.getD ("J ".toList ++ natStr idx),
          StartX := tenthsQ (s_job.StartX.getD 0),
          StartY := tenthsQ (s_job.StartY.getD 0),
          PitchX := tenthsQ (s_job.PitchX.getD 0),
          PitchY := tenthsQ (s_job.PitchY.getD 0),
          Size := tenthsQ (s_job.Size.getD 20),
          Speed := s_job.Speed.getD 500,
          Direction := s_job.Direction.getD 0 })
    else if serCmdConnected then
      match get_job_body_segment response with
      | none =>
          _err message_id
            ("Không đủ dữ liệu (nhận " ++ natS response.length ++ " bytes)")
      | some bodySeg =>
          let body := pyStrip (bodySeg.filter (fun c => ¬ c = '\r'))
          let tokens := (splitUnders body).map pyStrip
          let job_header := (tokens.get? 0).getD "J 0".toList
          let job_number : Int :=
            if job_header ≠ [] ∧ job_header.head? = some 'J' then
              (pyInt (job_header.drop 1)).getD 0
            else 0
          let character :=
            match tokens.get? 23 with
            | some t =>
                if t ≠ [] then pyStrip (t.filter (fun c => ¬ (c = '\r' ∨ c = '"')))
                else t
            | none => []
          match (do
            let size ← floatTok tokens 1
            let speed ← intTok tokens 3
            let sx ← floatTok tokens 4
            let sy ← floatTok tokens 5
            let px ← floatTok tokens 6
            let py ← floatTok tokens 7
            Except.ok (size, speed, sx, sy, px, py) :
              Except String (ℚ × Int × ℚ × ℚ × ℚ × ℚ)) with
          | .error e => _err message_id ("GET_JOB error: " ++ e)
          | .ok v =>
              _ok message_id (.jobReply
                { Id := freshId, CreatedAt := now, LastRunAt := now,
                  LastUpdated := now, LastSyncedToDevice := now,
                  JobNumber := job_number, JobName := [],
                  CharacterString := character,
                  StartX := v.2.2.1, StartY := v.2.2.2.1,
                  PitchX := v.2.2.2.2.1, PitchY := v.2.2.2.2.2,
                  Size := v.1, Speed := v.2.1, Direction := dirTok tokens })
    else _err message_id "SOFTWARE_COMMAND serial not available"

/-- `Id` carried by a job reply, when the reply is one. -/
def replyJobId (r : Reply) : Option String :=
  match r.Message with
  | .jobReply j => some j.Id
  | _ => none

/-! ## Concurrent entries into `exec_sc_operation` (claim C1)

`handle_envelope` runs on the single ZeroMQ REP thread; `handle_input_edge`
spawns a fresh daemon thread per confirmed PLC edge
(`threading.Thread(target=_run, daemon=True).start()`), and both call
`exec_sc_operation` directly.  The function acquires no operation-level
lock: `sc_rx_lock` is taken only inside individual statements (the status
clear, each wait poll) and `ser_lock` only inside individual Modbus
frames — no lock spans the send/wait/relay sequence.  The two concurrent
calls are modelled as two threads, each advancing through the atomic steps
of `exec_sc_operation`; a scheduler interleaves them freely, and because
no lock spans the steps, a scheduled thread always advances.

Step indices (spec step numbers in parentheses):
  0 relay on-send (1); 1 status clear (2); 2 transmit (3);
  3 wait/collect (4–6); 4 relay on-complete / on-timeout (7).
A thread with counter `pc` has completed the steps before `pc`; it is
inside steps 2–7 exactly when it has executed the status clear and not yet
the finishing relay call: `2 ≤ pc ≤ 4`. -/

/-- Number of modelled steps of one `exec_sc_operation` call. -/
def opStepCount : Nat := 5

/-- A scheduled thread advances one step; nothing in the code blocks it on
the other thread. -/
def stepThread (pc : Nat) : Nat := if pc < opStepCount then pc + 1 else pc

/-- Run a schedule (`false` steps the UI thread, `true` the input-edge
thread) from both threads at entry. -/
def runSched (sched : List Bool) : Nat × Nat :=
  sched.foldl
    (fun p s => if s then (p.1, stepThread p.2) else (stepThread p.1, p.2))
    (0, 0)

/-- Inside the send/wait/relay sequence (spec steps 2–7). -/
def inCritical (pc : Nat) : Bool := 2 ≤ pc && pc ≤ 4

/-- The claim's mutual-exclusion property: under no interleaving are both
entries inside steps 2–7 at the same time.  (Quantifying over full
schedules covers every reachable intermediate state, since each prefix is
itself a schedule.) -/
def mutualExclusion : Prop :=
  ∀ sched : List Bool,
    ¬ (inCritical (runSched sched).1 = true ∧ inCritical (runSched sched).2 = true)

/-- A job-5 store with an assigned Id. -/
def c4Store : Store :=
  [(5, { Id := "aaaaaaaaaaaaaaaaaaaaaaaa",
         CreatedAt := some "2024-01-01T00:00:00Z" })]

/-- A valid device capture for job 5. -/
def c4Response : Bytes :=
  ("%J5_B\r".toList.map Char.toNat) ++ [0x1F] ++
    ("J 5_2.0_0_2400_0.0_0.0_0.0_0.0_a_b_c_d".toList.map Char.toNat) ++
    [0x1F] ++ ("x".toList.map Char.toNat)

/-! ## Claim C3 theorems -/

/-- A sample GET_JOB capture for job 15: header echo `%J15_B\r`, body
`J 15_…` with eleven underscores, trailing segment `x`. -/
def c3SampleResponse : Bytes :=
  ("%J15_B\r".toList.map Char.toNat) ++ [0x1F] ++
    ("J 15_2.0_0_2400_0.0_0.0_0.0_0.0_a_b_c_d".toList.map Char.toNat) ++ [0x1F] ++
    ("x".toList.map Char.toNat)

/-! ## Theorems -/

theorem splitAtGt_length :
    ∀ {l : List Char} {t a : List Char}, splitAtGt l = some (t, a) →
      l.length = t.length + 1 + a.length := by
  intro l
  induction l with
  | nil => intro t a h; simp [splitAtGt] at h
  | cons c cs ih =>
      intro t a h
      by_cases hc : c = '>'
      · subst hc
        simp [splitAtGt] at h
        obtain ⟨ht, ha⟩ := h
        subst ht; subst ha; simp; omega
      · rw [splitAtGt, if_neg hc, Option.map_eq_some'] at h
        obtain ⟨p, hsome, heq⟩ := h
        have ht : t = c :: p.1 := by
          have := congrArg Prod.fst heq; simpa using this.symm
        have ha : a = p.2 := by
          have := congrArg Prod.snd heq; simpa using this.symm
        subst ht; subst ha
        have := ih hsome
        simp [this]; omega

/-- `controller.py`'s `ensure_even_before_cr` never changes its input: in the
odd CR branch `core + b"\r"` re-assembles the original payload, in the odd
CRLF branch `core + b"\r\n"[-2:]` re-assembles it, and every other branch
returns the payload unchanged. -/
theorem controller_ensure_even_id (p : Bytes) :
    Controller.ensure_even_before_cr p = p := by
  unfold Controller.ensure_even_before_cr
  split
  · rfl
  · rename_i coreRev heq
    have hp : p = coreRev.reverse ++ [13, 10] := by
      rw [← p.reverse_reverse, heq]; simp
    split <;> simp [hp]
  · rename_i coreRev heq
    have hp : p = coreRev.reverse ++ [13] := by
      rw [← p.reverse_reverse, heq]; simp
    split <;> simp [hp]
  · rfl

/-- A state-code list containing a value outside 1..5 makes `multiData` fail
(the first invalid code is reported). -/
theorem multiData_error_of_invalid {codes : List Nat}
    (h : ∃ c ∈ codes, ¬ (c = 1 ∨ c = 2 ∨ c = 3 ∨ c = 4 ∨ c = 5)) :
    ∃ c, multiData codes = .error c := by
  induction codes with
  | nil => simp at h
  | cons c cs ih =>
      by_cases hc : c = 1 ∨ c = 2 ∨ c = 3 ∨ c = 4 ∨ c = 5
      · obtain ⟨d, hd, hdv⟩ := h
        rcases List.mem_cons.mp hd with rfl | hmem
        · exact absurd hc hdv
        · obtain ⟨e, he⟩ := ih ⟨d, hmem, hdv⟩
          exact ⟨e, by simp [multiData, hc, he, Except.map]⟩
      · exact ⟨c, by simp [multiData, hc]⟩

/-- The attempt loop of `control_single_relay` only ever writes copies of its
frame, never changes the connection flags, and writes at least once when any
attempt is allowed. -/
theorem scrLoop_spec (slave addr : Nat) (frame : Bytes) :
    ∀ (n : Nat) (rb : RelayBus),
      ∃ k, (scrLoop slave addr frame n rb).2.connected = rb.connected ∧
        (scrLoop slave addr frame n rb).2.dryRun = rb.dryRun ∧
        (scrLoop slave addr frame n rb).2.written =
          rb.written ++ List.replicate k frame ∧
        (1 ≤ n → 1 ≤ k) := by
  intro n
  induction n with
  | zero => intro rb; exact ⟨0, rfl, rfl, by simp [scrLoop], by omega⟩
  | succ n ih =>
      intro rb
      rcases hr : rb.responses with _ | ⟨r, rest⟩
      · simp only [scrLoop, writeFrame, readEcho, hr]
        split_ifs <;>
          first
          | exact ⟨1, rfl, rfl, by simp, fun _ => le_refl 1⟩
          | (obtain ⟨k, hc, hd, hw, _⟩ :=
              ih { connected := rb.connected, dryRun := rb.dryRun,
                   responses := [], written := rb.written ++ [frame] }
             exact ⟨k + 1, hc, hd,
               by rw [hw]; simp [List.replicate_succ], fun _ => by omega⟩)
      · simp only [scrLoop, writeFrame, readEcho, hr]
        split_ifs <;>
          first
          | exact ⟨1, rfl, rfl, by simp, fun _ => le_refl 1⟩
          | (obtain ⟨k, hc, hd, hw, _⟩ :=
              ih { connected := rb.connected, dryRun := rb.dryRun,
                   responses := rest, written := rb.written ++ [frame] }
             exact ⟨k + 1, hc, hd,
               by rw [hw]; simp [List.replicate_succ], fun _ => by omega⟩)

/-- `control_single_relay` on a valid address only appends copies of its own
FC16 frame to the write log (none when the bus is absent, at least one when
it is connected) and preserves the connection flags. -/
theorem control_single_relay_writes (rb : RelayBus) (slave addr sv r : Nat)
    (haddr : 1 ≤ addr ∧ addr ≤ 12) :
    ∃ k, (control_single_relay rb slave addr sv r).2.connected = rb.connected ∧
      (control_single_relay rb slave addr sv r).2.dryRun = rb.dryRun ∧
      (control_single_relay rb slave addr sv r).2.written =
        rb.written ++ List.replicate k (singleFrame slave addr sv) ∧
      (rb.connected = true → 1 ≤ k) := by
  by_cases hconn : rb.connected = true
  · have hunfold : control_single_relay rb slave addr sv r =
        scrLoop slave addr (singleFrame slave addr sv) (r + 1) rb := by
      simp [control_single_relay, haddr, hconn, singleFrame]
    obtain ⟨k, hc, hd, hw, hk⟩ :=
      scrLoop_spec slave addr (singleFrame slave addr sv) (r + 1) rb
    rw [hunfold]
    exact ⟨k, hc, hd, hw, fun _ => hk (by omega)⟩
  · by_cases hdry : rb.dryRun = true
    · exact ⟨0, by simp [control_single_relay, haddr, hconn, hdry],
        by simp [control_single_relay, haddr, hconn, hdry],
        by simp [control_single_relay, haddr, hconn, hdry],
        fun h => absurd h hconn⟩
    · exact ⟨0, by simp [control_single_relay, haddr, hconn, hdry],
        by simp [control_single_relay, haddr, hconn, hdry],
        by simp [control_single_relay, haddr, hconn, hdry],
        fun h => absurd h hconn⟩

theorem frameAddr_singleFrame (slave addr sv : Nat) :
    frameAddr (singleFrame slave addr sv) = addr := rfl

theorem frameQty_singleFrame (slave addr sv : Nat) :
    frameQty (singleFrame slave addr sv) = 1 := rfl

/-- A single-register frame for address `a` does not touch any other
register. -/
theorem frameTouches_singleFrame (slave addr sv r : Nat) :
    frameTouches (singleFrame slave addr sv) r = decide (r = addr) := by
  simp only [frameTouches, frameAddr_singleFrame, frameQty_singleFrame]
  by_cases h : r = addr <;> (simp [h]; try omega)

/-- Effect of one single-register frame on its own register. -/
theorem applyFrame_singleFrame_self (st : Nat → Bool) (slave addr sv : Nat) :
    applyFrame st (singleFrame slave addr sv) addr =
      (if sv = 1 then true else if sv = 2 then false else st addr) := by
  have hT : frameTouches (singleFrame slave addr sv) addr = true := by
    rw [frameTouches_singleFrame]; simp
  have hidx : 7 + 2 * (addr - frameAddr (singleFrame slave addr sv)) = 7 := by
    rw [frameAddr_singleFrame]; omega
  have hc : (singleFrame slave addr sv).getD 7 0 = sv := rfl
  simp only [applyFrame, hT, if_true, hidx, hc]

/-- A single-register frame leaves every other register unchanged. -/
theorem applyFrame_singleFrame_other (st : Nat → Bool) (slave addr sv r : Nat)
    (h : r ≠ addr) :
    applyFrame st (singleFrame slave addr sv) r = st r := by
  have hT : frameTouches (singleFrame slave addr sv) r = false := by
    rw [frameTouches_singleFrame]; simp [h]
  simp [applyFrame, hT]

theorem relayStateAfter_append (st : Nat → Bool) (l1 l2 : List Bytes) :
    relayStateAfter st (l1 ++ l2) = relayStateAfter (relayStateAfter st l1) l2 := by
  simp [relayStateAfter, List.foldl_append]

/-- Frames that never write register `r` leave it unchanged. -/
theorem relayStateAfter_untouched (st : Nat → Bool) (frames : List Bytes) (r : Nat)
    (h : ∀ f ∈ frames, frameTouches f r = false) :
    relayStateAfter st frames r = st r := by
  induction frames generalizing st with
  | nil => rfl
  | cons f fs ih =>
      have hf := h f (List.mem_cons_self f fs)
      have hrest : ∀ g ∈ fs, frameTouches g r = false :=
        fun g hg => h g (List.mem_cons_of_mem f hg)
      simp only [relayStateAfter, List.foldl_cons] at *
      rw [ih _ hrest]
      simp [applyFrame, hf]

/-- At least one OFF frame for register `a` leaves it OFF. -/
theorem relayStateAfter_replicate_off (slave addr : Nat) :
    ∀ (k : Nat) (st : Nat → Bool), 1 ≤ k →
      relayStateAfter st (List.replicate k (singleFrame slave addr 2)) addr = false := by
  intro k
  induction k with
  | zero => intro st h; omega
  | succ k ih =>
      intro st _
      rcases Nat.eq_zero_or_pos k with h0 | hpos
      · subst h0
        simp [relayStateAfter, applyFrame_singleFrame_self]
      · simp only [List.replicate_succ, relayStateAfter, List.foldl_cons]
        exact ih _ hpos

/-! ## Evaluation lemmas for the encoder on plain text -/

/-- Scanning a non-`<` character copies its UTF-8 bytes and continues. -/
theorem encN_cons_ne (fuel : Nat) (c : Char) (rest : List Char) (hc : c ≠ '<') :
    encN (fuel + 1) (c :: rest) =
      match encN fuel rest with
      | .error e => .error e
      | .ok tl => .ok (utf8Char c ++ tl) := by
  simp [encN, hc]

/-- An ASCII character encodes to its own code point. -/
theorem utf8Char_ascii (c : Char) (h : c.toNat < 128) : utf8Char c = [c.toNat] := by
  simp [utf8Char, h]

/-- Token-free ASCII text followed by `<CR>` encodes to its code points
followed by the CR byte. -/
theorem encode_plain_cr (plain : List Char)
    (h : ∀ c ∈ plain, c ≠ '<' ∧ c.toNat < 128) :
    encode_ascii_with_tokens (plain ++ "<CR>".toList) =
      .ok (plain.map Char.toNat ++ [13]) := by
  induction plain with
  | nil => rfl
  | cons c cs ih =>
      have hc := h c (List.mem_cons_self c cs)
      have hrest : ∀ x ∈ cs, x ≠ '<' ∧ x.toNat < 128 :=
        fun x hx => h x (List.mem_cons_of_mem c hx)
      have hstep : encode_ascii_with_tokens ((c :: cs) ++ "<CR>".toList) =
          match encode_ascii_with_tokens (cs ++ "<CR>".toList) with
          | .error e => .error e
          | .ok tl => .ok (utf8Char c ++ tl) := by
        simpa [encode_ascii_with_tokens] using
          encN_cons_ne (cs ++ "<CR>".toList).length c (cs ++ "<CR>".toList) hc.1
      rw [hstep, ih hrest]
      simp [utf8Char_ascii c hc.2]

/-- Every character produced by `natDigitsAux` is a decimal digit. -/
theorem natDigitsAux_chars :
    ∀ (fuel n : Nat) (c : Char), c ∈ natDigitsAux fuel n → ∃ d, d < 10 ∧ c = digitChar d := by
  intro fuel
  induction fuel with
  | zero => intro n c hc; simp [natDigitsAux] at hc
  | succ fuel ih =>
      intro n c hc
      by_cases hn : n < 10
      · simp [natDigitsAux, hn] at hc
        exact ⟨n, hn, hc⟩
      · simp only [natDigitsAux, hn, if_false, List.mem_append, List.mem_singleton] at hc
        rcases hc with hc | hc
        · exact ih _ _ hc
        · exact ⟨n % 10, Nat.mod_lt _ (by omega), hc⟩

/-- Digit characters are plain printable ASCII. -/
theorem digitChar_plain (d : Nat) (hd : d < 10) :
    digitChar d ≠ '<' ∧ (digitChar d).toNat < 128 := by
  interval_cases d <;> simp [digitChar]

/-- `f"{v:.1f}"` output contains only plain ASCII, never `<`. -/
theorem fmt1_chars (t : Int) (c : Char) (hc : c ∈ fmt1 t) :
    c ≠ '<' ∧ c.toNat < 128 := by
  simp only [fmt1, List.mem_append] at hc
  rcases hc with (hc | hc) | hc
  · rcases (by split at hc <;> simp_all : c = '-') with rfl
    exact ⟨by decide, by decide⟩
  · obtain ⟨d, hd, rfl⟩ := natDigitsAux_chars _ _ _ hc
    exact digitChar_plain d hd
  · rcases List.mem_cons.mp hc with rfl | hc
    · exact ⟨by decide, by decide⟩
    · rcases List.mem_singleton.mp hc with rfl
      exact digitChar_plain _ (Nat.mod_lt _ (by omega))

/-- Every branch of `exec_sc_operation` transmits exactly its frame. -/
theorem exec_scTx (env : ScEnv) (rb : RelayBus) (slave : Nat) (raw : Bytes)
    (w : Bool) : (exec_sc_operation env rb slave raw w).scTx = [raw] := by
  cases w <;> cases henv : env.waitCode <;> simp [exec_sc_operation, henv]

/-! ## Claim C8 theorem -/

/-- C8: an out-of-range MOVE_AXIS value (X outside −80.0‥80.0, Y outside
−30.0‥30.0, in tenths) yields an error reply whose message states the value
is out of range, with no Marker bytes transmitted and no relay activity;
an in-range value builds exactly the frame `%P_{axis}{v:.1f}<CR>` and
transmits it (and nothing else). -/
theorem C8_move_axis_range :
    (∀ (env : ScEnv) (rb : RelayBus) (slave : Nat) (id : String) (t : Int),
        t < -800 ∨ 800 < t →
        handle_move_axis env rb slave id "X".toList (some (some t)) =
          (_err id "MOVE_AXIS error: X value out of range (-80.0~80.0)", [], rb)) ∧
    (∀ (env : ScEnv) (rb : RelayBus) (slave : Nat) (id : String) (t : Int),
        t < -300 ∨ 300 < t →
        handle_move_axis env rb slave id "Y".toList (some (some t)) =
          (_err id "MOVE_AXIS error: Y value out of range (-30.0~30.0)", [], rb)) ∧
    (∀ (env : ScEnv) (rb : RelayBus) (slave : Nat) (id : String) (t : Int),
        -800 ≤ t → t ≤ 800 →
        Controller.build_move_axis_command "X".toList t =
          .ok (("%P_X".toList ++ fmt1 t).map Char.toNat ++ [13]) ∧
        (handle_move_axis env rb slave id "X".toList (some (some t))).2.1 =
          [("%P_X".toList ++ fmt1 t).map Char.toNat ++ [13]]) ∧
    (∀ (env : ScEnv) (rb : RelayBus) (slave : Nat) (id : String) (t : Int),
        -300 ≤ t → t ≤ 300 →
        Controller.build_move_axis_command "Y".toList t =
          .ok (("%P_Y".toList ++ fmt1 t).map Char.toNat ++ [13]) ∧
        (handle_move_axis env rb slave id "Y".toList (some (some t))).2.1 =
          [("%P_Y".toList ++ fmt1 t).map Char.toNat ++ [13]]) := by
  have haxX : ("X".toList.map Char.toUpper) = "X".toList := rfl
  have haxY : ("Y".toList.map Char.toUpper) = "Y".toList := rfl
  have hbuildX : ∀ t : Int, -800 ≤ t → t ≤ 800 →
      Controller.build_move_axis_command "X".toList t =
        .ok (("%P_X".toList ++ fmt1 t).map Char.toNat ++ [13]) := by
    intro t h1 h2
    have hplain : ∀ c ∈ "%P_X".toList ++ fmt1 t, c ≠ '<' ∧ c.toNat < 128 := by
      intro c hc
      rcases List.mem_append.mp hc with hc | hc
      · fin_cases hc <;> exact ⟨by decide, by decide⟩
      · exact fmt1_chars t c hc
    have henc := encode_plain_cr ("%P_X".toList ++ fmt1 t) hplain
    have hrange : -800 ≤ t ∧ t ≤ 800 := ⟨h1, h2⟩
    simp only [Controller.build_move_axis_command, haxX]
    rw [if_neg (by simp), if_neg (by simp [hrange]), if_neg (by simp)]
    rw [show "%P_".toList ++ "X".toList ++ fmt1 t ++ "<CR>".toList =
        ("%P_X".toList ++ fmt1 t) ++ "<CR>".toList by simp]
    rw [henc]
    simp [Except.map, controller_ensure_even_id]
  have hbuildY : ∀ t : Int, -300 ≤ t → t ≤ 300 →
      Controller.build_move_axis_command "Y".toList t =
        .ok (("%P_Y".toList ++ fmt1 t).map Char.toNat ++ [13]) := by
    intro t h1 h2
    have hplain : ∀ c ∈ "%P_Y".toList ++ fmt1 t, c ≠ '<' ∧ c.toNat < 128 := by
      intro c hc
      rcases List.mem_append.mp hc with hc | hc
      · fin_cases hc <;> exact ⟨by decide, by decide⟩
      · exact fmt1_chars t c hc
    have henc := encode_plain_cr ("%P_Y".toList ++ fmt1 t) hplain
    have hrange : -300 ≤ t ∧ t ≤ 300 := ⟨h1, h2⟩
    simp only [Controller.build_move_axis_command, haxY]
    rw [if_neg (by simp), if_neg (by simp), if_neg (by simp [hrange])]
    rw [show "%P_".toList ++ "Y".toList ++ fmt1 t ++ "<CR>".toList =
        ("%P_Y".toList ++ fmt1 t) ++ "<CR>".toList by simp]
    rw [henc]
    simp [Except.map, controller_ensure_even_id]
  refine ⟨?_, ?_, ?_, ?_⟩
  · intro env rb slave id t ht
    have hr : ¬ (-800 ≤ t ∧ t ≤ 800) := by omega
    simp [handle_move_axis, haxX, Controller.build_move_axis_command, hr]
  · intro env rb slave id t ht
    have hr : ¬ (-300 ≤ t ∧ t ≤ 300) := by omega
    simp [handle_move_axis, haxY, Controller.build_move_axis_command, hr]
  · intro env rb slave id t h1 h2
    have hbX := hbuildX t h1 h2
    refine ⟨hbX, ?_⟩
    simp only [handle_move_axis, haxX]
    rw [if_neg (by simp)]
    split
    · rename_i e heq
      rw [hbX] at heq
      exact absurd heq (by simp)
    · rename_i tl heq
      have hfr := hbX.symm.trans heq
      injection hfr with hfr
      subst hfr
      split <;> simp [exec_scTx]
  · intro env rb slave id t h1 h2
    have hbY := hbuildY t h1 h2
    refine ⟨hbY, ?_⟩
    simp only [handle_move_axis, haxY]
    rw [if_neg (by simp)]
    split
    · rename_i e heq
      rw [hbY] at heq
      exact absurd heq (by simp)
    · rename_i tl heq
      have hfr := hbY.symm.trans heq
      injection hfr with hfr
      subst hfr
      split <;> simp [exec_scTx]

/-- C8 witness: X value 120.0 is rejected with the out-of-range message and
nothing transmitted; X value 33.5 transmits exactly `%P_X33.5<CR>`. -/
theorem C8_move_axis_range_witness :
    (handle_move_axis ⟨true, 20000, some 31, none⟩
        { connected := false, dryRun := true, responses := [] } 1 "m"
        "X".toList (some (some 1200)) =
      (_err "m" "MOVE_AXIS error: X value out of range (-80.0~80.0)", [],
        { connected := false, dryRun := true, responses := [] })) ∧
    (handle_move_axis ⟨true, 20000, some 31, none⟩
        { connected := false, dryRun := true, responses := [] } 1 "m"
        "X".toList (some (some 335))).2.1 =
      [("%P_X".toList ++ fmt1 335).map Char.toNat ++ [13]] :=
  ⟨C8_move_axis_range.1 ⟨true, 20000, some 31, none⟩
      { connected := false, dryRun := true, responses := [] } 1 "m" 1200
      (Or.inr (by decide)),
   (C8_move_axis_range.2.2.1 ⟨true, 20000, some 31, none⟩
      { connected := false, dryRun := true, responses := [] } 1 "m" 335
      (by decide) (by decide)).2⟩

/-! ## Claim C5 theorems -/

/-- C5 counterexample: a MOVE_AXIS operation whose Marker wait succeeds
(code 0x1F) while every relay write fails (silent bus) returns a plain
success reply, even though the executed operation accumulated relay errors
(`has_relay_errors = true`).  The claim says every such reply is an error
reply. -/
theorem C5_move_axis_ignores_relay_errors :
    (handle_move_axis ⟨false, 20000, some 31, none⟩
        { connected := true, dryRun := false, responses := [] } 1 "m"
        "X".toList (some (some 100))).1.IsError = false ∧
    (exec_sc_operation ⟨false, 20000, some 31, none⟩
        { connected := true, dryRun := false, responses := [] } 1
        (("%P_X".toList ++ fmt1 100).map Char.toNat ++ [13]) true).result.has_relay_errors
      = true := by
  set_option maxRecDepth 100000 in exact ⟨rfl, rfl⟩

/-- C5 amended: only BUILTIN_COMMAND (HOME/RESET) surfaces accumulated relay
errors as an error reply carrying the joined error list; every other UI
command — MOVE_AXIS, SET_JOB, SET_SEQUENCE, START_SEQUENCE, TOGGLE_ECHO and
START_JOB — returns a plain success reply whenever the Marker operation
succeeded, regardless of relay errors. -/
theorem exec_ok_some (env : ScEnv) (rb : RelayBus) (slave : Nat) (raw : Bytes)
    (c : Nat) (h : env.waitCode = some c) :
    (exec_sc_operation env rb slave raw true).result.ok = true := by
  simp [exec_sc_operation, h]

theorem C5_relay_error_surfacing :
    (∀ (env : ScEnv) (rb : RelayBus) (slave : Nat) (serCmd : Bool) (id : String),
        _ensure_sc_available_or_err env serCmd id = none →
        (exec_sc_operation env rb slave [37, 72, 13] true).result.ok = true →
        (exec_sc_operation env rb slave [37, 72, 13] true).result.has_relay_errors = true →
        (handle_builtin env rb slave serCmd id "rt_home".toList).1.IsError = true ∧
        (handle_builtin env rb slave serCmd id "rt_home".toList).1.ErrorMessage =
          "VM2030 operation succeeded but relay errors occurred: " ++
            String.intercalate "; "
              (exec_sc_operation env rb slave [37, 72, 13] true).result.relay_errors) ∧
    (∀ (env : ScEnv) (rb : RelayBus) (slave : Nat) (id : String) (t : Int) (raw : Bytes),
        Controller.build_move_axis_command "X".toList t = .ok raw →
        (exec_sc_operation env rb slave raw true).result.ok = true →
        (handle_move_axis env rb slave id "X".toList (some (some t))).1.IsError = false) ∧
    (∀ (env : ScEnv) (rb : RelayBus) (slave : Nat) (serCmd ready : Bool)
        (fid now : String) (store : Store) (id : String) (idx : Nat)
        (payload : SetJobPayload) (raw : Bytes),
        _ensure_sc_available_or_err env serCmd id = none →
        ready = true →
        build_vm2030_set_job_command idx payload
          ((storeGet store idx).bind (fun j => j.rawTail)) = .ok raw →
        (exec_sc_operation env rb slave raw true).result.ok = true →
        (handle_set_job env rb slave serCmd ready fid now store id idx
          payload).1.IsError = false) ∧
    (∀ (env : ScEnv) (rb : RelayBus) (slave : Nat) (serCmd ready : Bool)
        (now : String) (seqStore : SeqStore) (id : String) (idx : Int)
        (cs : List Char) (raw : Bytes),
        pyStrip cs ≠ [] →
        ready = true →
        _ensure_sc_available_or_err env serCmd id = none →
        Controller.sc_build_set_sequence idx (pyStrip cs) = .ok raw →
        (exec_sc_operation env rb slave raw true).result.ok = true →
        (handle_set_sequence env rb slave serCmd ready now seqStore id idx
          cs).1.IsError = false) ∧
    (∀ (env : ScEnv) (rb : RelayBus) (slave : Nat) (serCmd ready : Bool)
        (id : String) (idx : Int) (raw : Bytes),
        ready = true →
        _ensure_sc_available_or_err env serCmd id = none →
        Controller.sc_build_start_sequence idx = .ok raw →
        (exec_sc_operation env rb slave raw true).result.ok = true →
        (handle_start_sequence env rb slave serCmd ready id idx).1.IsError = false) ∧
    (∀ (env : ScEnv) (rb : RelayBus) (slave : Nat) (serCmd ready : Bool)
        (id : String) (b : Bool) (raw : Bytes),
        ready = true →
        _ensure_sc_available_or_err env serCmd id = none →
        Controller.sc_build_toggle_echo b = .ok raw →
        (exec_sc_operation env rb slave raw true).result.ok = true →
        (handle_toggle_echo env rb slave serCmd ready id b).1.IsError = false) ∧
    (∀ (env : ScEnv) (rb : RelayBus) (slave : Nat) (serCmd ready : Bool)
        (id : String) (idx : Int) (raw : Bytes),
        ready = true →
        _ensure_sc_available_or_err env serCmd id = none →
        Controller.sc_build_start_job idx = .ok raw →
        (exec_sc_operation env rb slave raw true).result.ok = true →
        (handle_start_job env rb slave serCmd ready id idx).1.IsError = false) := by
  refine ⟨?_, ?_, ?_, ?_, ?_, ?_, ?_⟩
  · intro env rb slave serCmd id hens hok herr
    have hb : Controller.sc_build_home = .ok [37, 72, 13] := rfl
    simp [handle_builtin, hens, hb, hok, herr, _err]
  · intro env rb slave id t raw hbuild hok
    have hax : ("X".toList.map Char.toUpper) = "X".toList := rfl
    simp only [handle_move_axis, hax]
    rw [if_neg (by simp)]
    split
    · rename_i e heq
      rw [hbuild] at heq
      exact absurd heq (by simp)
    · rename_i tl heq
      have hfr := hbuild.symm.trans heq
      injection hfr with hfr
      subst hfr
      simp [hok, _ok]
  · intro env rb slave serCmd ready fid now store id idx payload raw
      hens hready hbuild hok
    subst hready
    simp only [handle_set_job, hens]
    rw [if_neg (by simp)]
    split
    · rename_i e heq
      rw [hbuild] at heq
      exact absurd heq (by simp)
    · rename_i tl heq
      have hfr := hbuild.symm.trans heq
      injection hfr with hfr
      subst hfr
      simp [hok, _ok]
  · intro env rb slave serCmd ready now seqStore id idx cs raw
      hcs hready hens hbuild hok
    subst hready
    simp only [handle_set_sequence, hens]
    rw [if_neg hcs, if_neg (by simp)]
    split
    · rename_i e heq
      rw [hbuild] at heq
      exact absurd heq (by simp)
    · rename_i tl heq
      have hfr := hbuild.symm.trans heq
      injection hfr with hfr
      subst hfr
      simp [hok, _ok]
  · intro env rb slave serCmd ready id idx raw hready hens hbuild hok
    subst hready
    simp only [handle_start_sequence, hens]
    rw [if_neg (by simp)]
    split
    · rename_i e heq
      rw [hbuild] at heq
      exact absurd heq (by simp)
    · rename_i tl heq
      have hfr := hbuild.symm.trans heq
      injection hfr with hfr
      subst hfr
      simp [hok, _ok]
  · intro env rb slave serCmd ready id b raw hready hens hbuild hok
    subst hready
    simp only [handle_toggle_echo, hens]
    rw [if_neg (by simp)]
    split
    · rename_i e heq
      rw [hbuild] at heq
      exact absurd heq (by simp)
    · rename_i tl heq
      have hfr := hbuild.symm.trans heq
      injection hfr with hfr
      subst hfr
      simp [hok, _ok]
  · intro env rb slave serCmd ready id idx raw hready hens hbuild hok
    subst hready
    simp only [handle_start_job, hens]
    rw [if_neg (by simp)]
    split
    · rename_i e heq
      rw [hbuild] at heq
      exact absurd heq (by simp)
    · rename_i tl heq
      have hfr := hbuild.symm.trans heq
      injection hfr with hfr
      subst hfr
      simp [hok, _ok]

/-- C5 witness: with the Marker wait succeeding (code 0x1F) while every relay
write fails (silent bus), a HOME request yields an error reply through the
BUILTIN_COMMAND branch, while MOVE_AXIS, SET_JOB, SET_SEQUENCE,
START_SEQUENCE, TOGGLE_ECHO and START_JOB each yield a plain success
reply. -/
theorem C5_relay_error_surfacing_witness :
    (handle_builtin ⟨false, 20000, some 31, none⟩
        { connected := true, dryRun := false, responses := [] } 1 true "w"
        "rt_home".toList).1.IsError = true ∧
    (handle_move_axis ⟨false, 20000, some 31, none⟩
        { connected := true, dryRun := false, responses := [] } 1 "w2"
        "X".toList (some (some 100))).1.IsError = false ∧
    (handle_set_job ⟨false, 20000, some 31, none⟩
        { connected := true, dryRun := false, responses := [] } 1 true true
        "cccccccccccccccccccccccc" "2025-06-01T00:00:00Z" ([] : Store) "w3" 5
        {}).1.IsError = false ∧
    (handle_set_sequence ⟨false, 20000, some 31, none⟩
        { connected := true, dryRun := false, responses := [] } 1 true true
        "2025-06-01T00:00:00Z" ([] : SeqStore) "w4" 1
        "ABC".toList).1.IsError = false ∧
    (handle_start_sequence ⟨false, 20000, some 31, none⟩
        { connected := true, dryRun := false, responses := [] } 1 true true
        "w5" 1).1.IsError = false ∧
    (handle_toggle_echo ⟨false, 20000, some 31, none⟩
        { connected := true, dryRun := false, responses := [] } 1 true true
        "w6" true).1.IsError = false ∧
    (handle_start_job ⟨false, 20000, some 31, none⟩
        { connected := true, dryRun := false, responses := [] } 1 true true
        "w7" 1).1.IsError = false := by
  set_option maxRecDepth 200000 in
  refine ⟨(C5_relay_error_surfacing.1 ⟨false, 20000, some 31, none⟩
      { connected := true, dryRun := false, responses := [] } 1 true "w"
      rfl rfl rfl).1,
    C5_relay_error_surfacing.2.1 ⟨false, 20000, some 31, none⟩
      { connected := true, dryRun := false, responses := [] } 1 "w2" 100 _
      rfl (exec_ok_some _ _ _ _ 31 rfl),
    C5_relay_error_surfacing.2.2.1 ⟨false, 20000, some 31, none⟩
      { connected := true, dryRun := false, responses := [] } 1 true true
      "cccccccccccccccccccccccc" "2025-06-01T00:00:00Z" ([] : Store) "w3" 5
      {} _ rfl rfl rfl (exec_ok_some _ _ _ _ 31 rfl),
    C5_relay_error_surfacing.2.2.2.1 ⟨false, 20000, some 31, none⟩
      { connected := true, dryRun := false, responses := [] } 1 true true
      "2025-06-01T00:00:00Z" ([] : SeqStore) "w4" 1 "ABC".toList _
      (by decide) rfl rfl rfl (exec_ok_some _ _ _ _ 31 rfl),
    C5_relay_error_surfacing.2.2.2.2.1 ⟨false, 20000, some 31, none⟩
      { connected := true, dryRun := false, responses := [] } 1 true true
      "w5" 1 _ rfl rfl rfl (exec_ok_some _ _ _ _ 31 rfl),
    C5_relay_error_surfacing.2.2.2.2.2.1 ⟨false, 20000, some 31, none⟩
      { connected := true, dryRun := false, responses := [] } 1 true true
      "w6" true _ rfl rfl rfl (exec_ok_some _ _ _ _ 31 rfl),
    C5_relay_error_surfacing.2.2.2.2.2.2 ⟨false, 20000, some 31, none⟩
      { connected := true, dryRun := false, responses := [] } 1 true true
      "w7" 1 _ rfl rfl rfl (exec_ok_some _ _ _ _ 31 rfl)⟩

/-! ## Claim C7 theorem -/

/-- C7: when the wait for a completion code times out, `exec_sc_operation`
reports a timeout (no success), arms no R3-off timer, and its relay activity
— the on-send R2=ON frames plus the timeout R2=OFF frames — never writes
register R3; consequently R2 is observed OFF afterwards (when the bus is
connected; with no bus nothing is written at all) and R3 keeps its prior
state, in particular OFF when it was OFF. -/
theorem C7_timeout_relay_policy (env : ScEnv) (rb : RelayBus) (slave : Nat)
    (raw : Bytes) (st : Nat → Bool)
    (hcode : env.waitCode = none) (hw0 : rb.written = []) :
    (exec_sc_operation env rb slave raw true).result.ok = false ∧
    (exec_sc_operation env rb slave raw true).result.isTimeout = true ∧
    (exec_sc_operation env rb slave raw true).r3OffTimer = false ∧
    (∀ f ∈ (exec_sc_operation env rb slave raw true).bus.written,
        frameTouches f 3 = false) ∧
    (rb.connected = true →
      relayStateAfter st (exec_sc_operation env rb slave raw true).bus.written 2 = false) ∧
    relayStateAfter st (exec_sc_operation env rb slave raw true).bus.written 3 = st 3 := by
  obtain ⟨k1, hc1, hd1, hw1, hk1⟩ :=
    control_single_relay_writes rb slave 2 1 2 ⟨by omega, by omega⟩
  obtain ⟨k2, hc2, hd2, hw2, hk2⟩ :=
    control_single_relay_writes (control_single_relay rb slave 2 1 2).2 slave 2 2 2
      ⟨by omega, by omega⟩
  have hbus : (exec_sc_operation env rb slave raw true).bus =
      (control_single_relay (control_single_relay rb slave 2 1 2).2 slave 2 2 2).2 := by
    simp [exec_sc_operation, hcode, _relay_side_effects_on_send, _relay_on]
  have hwFinal : (exec_sc_operation env rb slave raw true).bus.written =
      List.replicate k1 (singleFrame slave 2 1) ++
        List.replicate k2 (singleFrame slave 2 2) := by
    rw [hbus, hw2, hw1, hw0]; simp
  have hmem : ∀ f ∈ (exec_sc_operation env rb slave raw true).bus.written,
      f = singleFrame slave 2 1 ∨ f = singleFrame slave 2 2 := by
    intro f hf
    rw [hwFinal] at hf
    rcases List.mem_append.mp hf with hf | hf
    · exact Or.inl (List.eq_of_mem_replicate hf)
    · exact Or.inr (List.eq_of_mem_replicate hf)
  have htouch : ∀ f ∈ (exec_sc_operation env rb slave raw true).bus.written,
      frameTouches f 3 = false := by
    intro f hf
    rcases hmem f hf with rfl | rfl <;>
      · rw [frameTouches_singleFrame]; simp
  refine ⟨?_, ?_, ?_, htouch, ?_, ?_⟩
  · simp [exec_sc_operation, hcode]
  · simp [exec_sc_operation, hcode]
  · simp [exec_sc_operation, hcode]
  · intro hconn
    rw [hwFinal, relayStateAfter_append]
    exact relayStateAfter_replicate_off slave 2 k2 _
      (hk2 (by rw [hc1]; exact hconn))
  · exact relayStateAfter_untouched st _ 3 htouch

/-- C7 witness: a concrete timed-out HOME operation on a connected bus with
all relays initially off ends with R2 OFF and R3 OFF. -/
theorem C7_timeout_relay_policy_witness :
    (exec_sc_operation ⟨false, 20000, none, none⟩
        { connected := true, dryRun := false, responses := [], written := [] }
        1 [37, 72, 13] true).result.ok = false ∧
    relayStateAfter allOff
      (exec_sc_operation ⟨false, 20000, none, none⟩
        { connected := true, dryRun := false, responses := [], written := [] }
        1 [37, 72, 13] true).bus.written 2 = false ∧
    relayStateAfter allOff
      (exec_sc_operation ⟨false, 20000, none, none⟩
        { connected := true, dryRun := false, responses := [], written := [] }
        1 [37, 72, 13] true).bus.written 3 = false := by
  have h := C7_timeout_relay_policy ⟨false, 20000, none, none⟩
    { connected := true, dryRun := false, responses := [], written := [] }
    1 [37, 72, 13] allOff rfl rfl
  exact ⟨h.1, h.2.2.2.2.1 rfl, h.2.2.2.2.2⟩

/-! ## Claim C10 theorems -/

/-- C10 counterexample: with BOARD_RELAY in dry-run mode (no serial handle),
`control_multi_relays` skips the state-code validation entirely and returns
`ok=True` for the invalid code 9, contradicting the claim that such calls
always return a failure result. -/
theorem C10_dry_run_skips_code_validation :
    (control_multi_relays
        { connected := false, dryRun := true, responses := [] } 1 2 [9]).1.ok = true ∧
    ¬ ((9 : Nat) = 1 ∨ (9 : Nat) = 2 ∨ (9 : Nat) = 3 ∨ (9 : Nat) = 4 ∨ (9 : Nat) = 5) := by
  exact ⟨rfl, by decide⟩

/-- C10 amended: (a) a relay address outside 1..12 makes `control_single_relay`
fail without writing; (b) a start address outside 1..12 or a register span
past channel 12 makes `control_multi_relays` fail without writing; (c) a
state-code outside {1,2,3,4,5} makes `control_multi_relays` fail without
writing whenever the dry-run short-circuit does not apply (serial handle
present, or dry-run off); in dry-run mode with no handle the code validation
is skipped and the call reports success (still writing nothing). -/
theorem C10_validation_no_write :
    (∀ (rb : RelayBus) (slave addr sv r : Nat), ¬ (1 ≤ addr ∧ addr ≤ 12) →
        (control_single_relay rb slave addr sv r).1.ok = false ∧
        (control_single_relay rb slave addr sv r).2 = rb) ∧
    (∀ (rb : RelayBus) (slave start r : Nat) (codes : List Nat),
        ¬ (1 ≤ start ∧ start ≤ 12) ∨ codes.length < 1 ∨ start + codes.length - 1 > 12 →
        (control_multi_relays rb slave start codes r).1.ok = false ∧
        (control_multi_relays rb slave start codes r).2 = rb) ∧
    (∀ (rb : RelayBus) (slave start r : Nat) (codes : List Nat),
        (rb.connected = true ∨ rb.dryRun = false) →
        (∃ c ∈ codes, ¬ (c = 1 ∨ c = 2 ∨ c = 3 ∨ c = 4 ∨ c = 5)) →
        (control_multi_relays rb slave start codes r).1.ok = false ∧
        (control_multi_relays rb slave start codes r).2 = rb) := by
  refine ⟨?_, ?_, ?_⟩
  · intro rb slave addr sv r h
    simp [control_single_relay, h]
  · intro rb slave start r codes h
    by_cases h1 : 1 ≤ start ∧ start ≤ 12
    · have h2 : codes = [] ∨ 12 < start + codes.length - 1 := by
        rcases h with h | h | h
        · exact absurd h1 h
        · exact Or.inl (List.length_eq_zero.mp (by omega))
        · exact Or.inr h
      simp [control_multi_relays, h1, h2]
    · simp [control_multi_relays, h1]
  · intro rb slave start r codes hdry hcodes
    obtain ⟨c0, hc0⟩ := multiData_error_of_invalid hcodes
    by_cases h1 : 1 ≤ start ∧ start ≤ 12
    · by_cases h2 : codes = [] ∨ 12 < start + codes.length - 1
      · simp [control_multi_relays, h1, h2]
      · by_cases h3 : rb.connected = true
        · simp [control_multi_relays, h1, h2, h3, hc0]
        · have h4 : rb.dryRun = false := by
            rcases hdry with h | h
            · exact absurd h h3
            · exact h
          simp [control_multi_relays, h1, h2, h3, h4, hc0]
    · simp [control_multi_relays, h1]

/-- C10 witness: address 13 (single write), span 8..13 (multi write) and the
invalid state code 9 on a live bus all fail concretely. -/
theorem C10_validation_no_write_witness :
    (control_single_relay
        { connected := true, dryRun := false, responses := [] } 1 13 1 2).1.ok = false ∧
    (control_multi_relays
        { connected := true, dryRun := false, responses := [] } 1 8 [1, 1, 1, 1, 1, 1] 2).1.ok = false ∧
    (control_multi_relays
        { connected := true, dryRun := false, responses := [] } 1 2 [9] 2).1.ok = false :=
  ⟨(C10_validation_no_write.1 _ 1 13 1 2 (by decide)).1,
   (C10_validation_no_write.2.1 _ 1 8 2 [1, 1, 1, 1, 1, 1] (by decide)).1,
   (C10_validation_no_write.2.2 _ 1 2 2 [9] (Or.inl rfl) ⟨9, by decide, by decide⟩).1⟩

/-! ## Claim C1 theorems -/

/-- C1 counterexample: the schedule that advances the UI entry three steps
and then the input-edge entry three steps leaves both inside the send/wait
region — `exec_sc_operation` enforces no mutual exclusion. -/
theorem C1_interleaving_violates_exclusion : ¬ mutualExclusion := by
  intro h
  exact h [false, false, false, true, true, true] (by decide)

/-- C1 amended: the two entry paths are not mutually excluded — there is an
interleaving with both the UI call and the PLC input-edge call inside
steps 2–7 at once (UI requests are serialized with each other only because
a single REP thread handles them; nothing serializes them against the edge
threads). -/
theorem C1_concurrent_entries_reachable :
    ∃ sched : List Bool,
      inCritical (runSched sched).1 = true ∧
      inCritical (runSched sched).2 = true :=
  ⟨[false, false, false, true, true, true], by decide, by decide⟩

/-! ## Claim C4 theorems -/

theorem storeGet_storePut (s : Store) (n : Nat) (j : StoredJob) :
    storeGet (storePut s n j) n = some j := by
  simp [storeGet, storePut, List.find?]

/-- The availability guard returns either nothing or the fixed error reply. -/
theorem ensure_sc_err_shape (env : ScEnv) (sc : Bool) (id : String) :
    _ensure_sc_available_or_err env sc id = none ∨
    _ensure_sc_available_or_err env sc id =
      some (_err id "SOFTWARE_COMMAND COM is not connected (dry_run=false)") := by
  unfold _ensure_sc_available_or_err
  split_ifs <;> simp

/-- C4 counterexample: job 5 has the persisted Id `aaaa…`, yet the GET_JOB
reply carries the freshly generated `bbbb…` — the reply's Id does not equal
the previously assigned Id (and its timestamps are the current clock, not
the stored CreatedAt). -/
theorem C4_get_job_returns_fresh_id :
    replyJobId (handle_get_job ⟨false, 0, none, none⟩ true
        "bbbbbbbbbbbbbbbbbbbbbbbb" "2025-06-01T00:00:00Z" c4Store "m" 5 c4Response) =
      some "bbbbbbbbbbbbbbbbbbbbbbbb" ∧
    (storeGet c4Store 5).map StoredJob.Id = some "aaaaaaaaaaaaaaaaaaaaaaaa" ∧
    ("bbbbbbbbbbbbbbbbbbbbbbbb" : String) ≠ "aaaaaaaaaaaaaaaaaaaaaaaa" := by
  refine ⟨rfl, rfl, by decide⟩

/-- C4 amended: the persisted Id is stable — `_ensure_job_id` returns the
existing Id unchanged and is idempotent, and SET_JOB preserves both the Id
and the CreatedAt of an existing record — but GET_JOB replies do not carry
it: every job reply's Id is the freshly generated value (and GET_JOB leaves
the store untouched). -/
theorem C4_id_stability :
    (∀ (s : Store) (n : Nat) (fresh : String) (j : StoredJob),
        storeGet s n = some j → j.Id ≠ "" →
        _ensure_job_id s n fresh = (j.Id, s)) ∧
    (∀ (s : Store) (n : Nat) (fresh fresh2 : String), fresh ≠ "" →
        _ensure_job_id (_ensure_job_id s n fresh).2 n fresh2 =
          ((_ensure_job_id s n fresh).1, (_ensure_job_id s n fresh).2)) ∧
    (∀ (env : ScEnv) (rb : RelayBus) (slave : Nat) (serCmd ready : Bool)
        (fid now : String) (store : Store) (id : String) (idx : Nat)
        (payload : SetJobPayload) (j : StoredJob),
        storeGet store idx = some j → j.Id ≠ "" →
        (storeGet (handle_set_job env rb slave serCmd ready fid now store id
            idx payload).2.1 idx).map StoredJob.Id = some j.Id ∧
        (∀ d, j.CreatedAt = some d →
          ((storeGet (handle_set_job env rb slave serCmd ready fid now store id
              idx payload).2.1 idx).bind StoredJob.CreatedAt) = some d)) ∧
    (∀ (env : ScEnv) (serCmd : Bool) (fid now : String) (store : Store)
        (id : String) (idx : Nat) (resp : Bytes) (i : String),
        replyJobId (handle_get_job env serCmd fid now store id idx resp) = some i →
        i = fid) := by
  have hens : ∀ (s : Store) (n : Nat) (fresh : String) (j : StoredJob),
      storeGet s n = some j → j.Id ≠ "" → _ensure_job_id s n fresh = (j.Id, s) := by
    intro s n fresh j hj hid
    simp [_ensure_job_id, hj, hid]
  refine ⟨hens, ?_, ?_, ?_⟩
  · intro s n fresh fresh2 hfresh
    rcases hj : storeGet s n with _ | j
    · simp only [_ensure_job_id, hj]
      exact hens _ _ _ _ (storeGet_storePut s n { Id := fresh }) hfresh
    · by_cases hid : j.Id ≠ ""
      · rw [hens s n fresh j hj hid]
        exact hens s n fresh2 j hj hid
      · simp only [_ensure_job_id, hj, hid, if_false]
        exact hens _ _ _ _ (storeGet_storePut s n { j with Id := fresh }) hfresh
  · intro env rb slave serCmd ready fid now store id idx payload j hj hid
    unfold handle_set_job
    rcases ensure_sc_err_shape env serCmd id with he | he <;> rw [he]
    · by_cases hready : ready
      · simp only [hready, not_true, if_false]
        rcases hbuild : build_vm2030_set_job_command idx payload
            ((storeGet store idx).bind (fun j => j.rawTail)) with e | raw
        · simp [hj, hid]
        · have hens1 : _ensure_job_id store idx fid = (j.Id, store) :=
            hens store idx fid j hj hid
          simp only [hens1, hj]
          constructor
          · split <;> simp [storeGet_storePut]
          · intro d hd
            split <;> simp [storeGet_storePut, hj, hd]
      · simp [hready, hj, hid]
    · simp [hj, hid]
  · intro env serCmd fid now store id idx resp i h
    unfold handle_get_job at h
    rcases ensure_sc_err_shape env serCmd id with he | he <;> rw [he] at h
    · by_cases hdry : env.scDryRun = true
      · simp only [hdry, if_true] at h
        simp [replyJobId, _ok] at h
        first | exact h | exact h.symm
      · simp only [hdry] at h
        by_cases hsc : serCmd = true
        · rcases hsel : get_job_body_segment resp with _ | seg <;>
            simp only [hsc, if_true, if_false, hsel, Bool.false_eq_true] at h
          · simp [replyJobId, _err] at h
          · split at h
            · simp [replyJobId, _err] at h
            · simp [replyJobId, _ok] at h
              first | exact h | exact h.symm
        · simp only [hsc, Bool.false_eq_true, if_false] at h
          simp [replyJobId, _err] at h
    · simp [replyJobId, _err] at h

/-- C4 witness: on the concrete job-5 store, `_ensure_job_id` keeps the
assigned Id, SET_JOB preserves Id and CreatedAt, and the GET_JOB reply of
the counterexample capture carries the fresh Id. -/
theorem C4_id_stability_witness :
    _ensure_job_id c4Store 5 "cccccccccccccccccccccccc" =
      ("aaaaaaaaaaaaaaaaaaaaaaaa", c4Store) ∧
    (storeGet (handle_set_job ⟨true, 20000, some 31, none⟩
        { connected := false, dryRun := true, responses := [] } 1 true true
        "cccccccccccccccccccccccc" "2025-06-01T00:00:00Z" c4Store "m" 5
        {}).2.1 5).map StoredJob.Id = some "aaaaaaaaaaaaaaaaaaaaaaaa" ∧
    "bbbbbbbbbbbbbbbbbbbbbbbb" = "bbbbbbbbbbbbbbbbbbbbbbbb" := by
  refine ⟨?_, ?_, rfl⟩
  · exact C4_id_stability.1 c4Store 5 "cccccccccccccccccccccccc"
      { Id := "aaaaaaaaaaaaaaaaaaaaaaaa", CreatedAt := some "2024-01-01T00:00:00Z" }
      rfl (by decide)
  · exact (C4_id_stability.2.2.1 ⟨true, 20000, some 31, none⟩
      { connected := false, dryRun := true, responses := [] } 1 true true
      "cccccccccccccccccccccccc" "2025-06-01T00:00:00Z" c4Store "m" 5 {}
      { Id := "aaaaaaaaaaaaaaaaaaaaaaaa", CreatedAt := some "2024-01-01T00:00:00Z" }
      rfl (by decide)).1

/-- C3 counterexample: on the job-15 capture, the code selects the body via
its underscore fallback, while the claimed canonical rule (header regex
`%J\s*\d+\s*_B` first) selects the header echo segment — the two rules
disagree, so the code does not implement the claimed selection for every
job index. -/
theorem C3_code_rule_differs_from_spec :
    get_job_body_segment c3SampleResponse =
      some "J 15_2.0_0_2400_0.0_0.0_0.0_0.0_a_b_c_d".toList ∧
    spec_body_segment c3SampleResponse = some "%J15_B\r".toList ∧
    get_job_body_segment c3SampleResponse ≠ spec_body_segment c3SampleResponse := by
  refine ⟨by decide, by decide, by decide⟩

theorem splitOn31_ne_nil : ∀ bs : Bytes, splitOn31 bs ≠ [] := by
  intro bs
  cases bs with
  | nil => simp [splitOn31]
  | cons b rest =>
      by_cases hb : b = 0x1F
      · simp [splitOn31, hb]
      · simp only [splitOn31, hb, if_false]
        cases h : splitOn31 rest <;> simp

theorem splitOn31_append :
    ∀ (a rest : Bytes), 0x1F ∉ a →
      splitOn31 (a ++ 0x1F :: rest) = a :: splitOn31 rest := by
  intro a
  induction a with
  | nil => intro rest _; simp [splitOn31]
  | cons b a' ih =>
      intro rest hmem
      have hb : b ≠ 0x1F := fun h => hmem (h ▸ List.mem_cons_self b a')
      have ha' : 0x1F ∉ a' := fun h => hmem (List.mem_cons_of_mem b h)
      simp only [List.cons_append, splitOn31, hb, if_false, List.append_eq, ih rest ha']

/-- C3 amended: the GET_JOB parser picks the first segment containing the
literal text `J 20` or more than ten underscores (else segment index 2).
In particular, for every job index it selects the body through the
underscore fallback whenever the body carries more than ten underscores (a
real body has 23) and no earlier segment qualifies; the header regex of the
claim is never consulted. -/
theorem C3_selection (a b c : Bytes)
    (ha31 : (0x1F : Nat) ∉ a) (hb31 : (0x1F : Nat) ∉ b)
    (haJ : containsSub "J 20".toList (decodeSeg a) = false)
    (haU : countUnders (decodeSeg a) ≤ 10)
    (hbody : containsSub "J 20".toList (decodeSeg b) = true ∨
      10 < countUnders (decodeSeg b)) :
    get_job_body_segment (a ++ 0x1F :: (b ++ 0x1F :: c)) = some (decodeSeg b) := by
  have hsplit : splitOn31 (a ++ 0x1F :: (b ++ 0x1F :: c)) =
      a :: b :: splitOn31 c := by
    rw [splitOn31_append a _ ha31, splitOn31_append b _ hb31]
  have hlen : 1 ≤ (splitOn31 c).length :=
    List.length_pos.mpr (splitOn31_ne_nil c)
  have haJ' : containsSub ['J', ' ', '2', '0'] (decodeSeg a) = false := haJ
  have hpa : (containsSub ['J', ' ', '2', '0'] (decodeSeg a) ||
      decide (10 < countUnders (decodeSeg a))) = false := by
    rw [Bool.or_eq_false_iff]
    exact ⟨haJ', by simp; omega⟩
  have hpb : (containsSub ['J', ' ', '2', '0'] (decodeSeg b) ||
      decide (10 < countUnders (decodeSeg b))) = true := by
    rcases hbody with h | h
    · have h' : containsSub ['J', ' ', '2', '0'] (decodeSeg b) = true := h
      simp [h']
    · simp [h]
  simp only [get_job_body_segment, hsplit, List.map_cons, List.length_cons]
  rw [if_pos (by simp [List.length_map]; omega)]
  rw [List.find?]
  rw [List.find?]
  simp [hpa, hpb]

/-- C3 witness: a job-7 capture whose body has eleven underscores is
selected as the body segment. -/
theorem C3_selection_witness :
    get_job_body_segment
        (("%J7_B\r".toList.map Char.toNat) ++ 0x1F ::
          (("J 7_2.0_0_2400_0.0_0.0_0.0_0.0_a_b_c_d".toList.map Char.toNat) ++
            0x1F :: [])) =
      some (decodeSeg ("J 7_2.0_0_2400_0.0_0.0_0.0_0.0_a_b_c_d".toList.map Char.toNat)) :=
  C3_selection _ _ []
    (by decide) (by decide) (by decide) (by decide) (Or.inr (by decide))

/-! ## Claim C6 theorems -/

theorem collectLoop_data_before_1F :
    ∀ (data : Bytes) (st : ScRxState) (rest : Bytes),
      (∀ b ∈ data, isCompletionByte b = false) →
      st.lastCode ≠ some 0x1F →
      collectLoop st (data ++ 0x1F :: rest) = st.buffer ++ data := by
  intro data
  induction data with
  | nil =>
      intro st rest _ _
      simp [collectLoop, readerStep, isCompletionByte]
  | cons b bs ih =>
      intro st rest hnc hst
      have hb := hnc b (List.mem_cons_self b bs)
      have hbs : ∀ x ∈ bs, isCompletionByte x = false :=
        fun x hx => hnc x (List.mem_cons_of_mem b hx)
      have hstep : readerStep st b = { st with buffer := st.buffer ++ [b] } := by
        simp [readerStep, hb]
      simp only [List.cons_append, collectLoop, hstep, List.append_eq]
      rw [if_neg (by simpa using hst)]
      rw [ih { st with buffer := st.buffer ++ [b] } rest hbs (by simpa using hst)]
      simp

theorem collectLoop_no_1F :
    ∀ (events : Bytes) (st : ScRxState),
      0x1F ∉ events → st.lastCode ≠ some 0x1F →
      collectLoop st events =
        st.buffer ++ events.filter (fun b => ! isCompletionByte b) := by
  intro events
  induction events with
  | nil => intro st _ _; simp [collectLoop]
  | cons b bs ih =>
      intro st hmem hst
      have hb31 : b ≠ 0x1F := fun h => hmem (h ▸ List.mem_cons_self b bs)
      have hbs : 0x1F ∉ bs := fun h => hmem (List.mem_cons_of_mem b h)
      by_cases hbc : isCompletionByte b = true
      · have hb : b = 0x87 := by
          rcases (by simpa [isCompletionByte] using hbc : b = 0x1F ∨ b = 0x87) with h | h
          · exact absurd h hb31
          · exact h
        subst hb
        have hstep : readerStep st 0x87 = { st with lastCode := some 0x87 } := by
          simp [readerStep, isCompletionByte]
        simp only [collectLoop, hstep]
        rw [if_neg (by simp)]
        rw [ih { st with lastCode := some 0x87 } hbs (by simp)]
        simp [isCompletionByte]
      · have hstep : readerStep st b = { st with buffer := st.buffer ++ [b] } := by
          simp [readerStep, hbc]
        simp only [collectLoop, hstep]
        rw [if_neg (by simpa using hst)]
        rw [ih { st with buffer := st.buffer ++ [b] } hbs (by simpa using hst)]
        simp [hbc]

/-- Completion bytes are never buffered by the reader. -/
theorem readerRun_buffer_no_completion :
    ∀ (pre : Bytes) (st : ScRxState),
      (∀ b ∈ st.buffer, isCompletionByte b = false) →
      ∀ b ∈ (readerRun st pre).buffer, isCompletionByte b = false := by
  intro pre
  induction pre with
  | nil => intro st h; exact h
  | cons x xs ih =>
      intro st h
      simp only [readerRun, List.foldl_cons]
      apply ih
      by_cases hx : isCompletionByte x = true
      · simpa [readerStep, hx] using h
      · intro b hb
        rcases (by simpa [readerStep, hx] using hb : b ∈ st.buffer ∨ b = x) with hb' | rfl
        · exact h b hb'
        · simpa using hx

/-- C6 counterexample: a completion byte 0x87 does not terminate the collect
— bytes arriving after it are still returned, so the result is not "exactly
the bytes before the completion byte". -/
theorem C6_0x87_not_honored :
    ¬ (∀ c : Nat, isCompletionByte c = true →
        sc_read_until_complete_collect sc_clear_rx ([0x41] ++ [c] ++ [0x42]) =
          [0x41]) := by
  intro h
  have h87 := h 0x87 (by decide)
  revert h87
  decide

/-- C6 amended: after a `clear`, the collect (i) returns exactly the data
bytes delivered before the first 0x1F, excluding it, as soon as the 0x1F is
seen; (ii) when no 0x1F arrives before the deadline it drains every buffered
data byte — a 0x87 neither terminates the wait nor appears in the result;
(iii) a 0x1F recorded before entry is honored immediately, returning the
bytes buffered since the clear; (iv) completion bytes are never part of the
returned buffer. -/
theorem C6_collect_semantics :
    (∀ (data rest : Bytes), (∀ b ∈ data, isCompletionByte b = false) →
        sc_read_until_complete_collect sc_clear_rx (data ++ 0x1F :: rest) = data) ∧
    (∀ (events : Bytes), 0x1F ∉ events →
        sc_read_until_complete_collect sc_clear_rx events =
          events.filter (fun b => ! isCompletionByte b)) ∧
    (∀ (pre post : Bytes), (readerRun sc_clear_rx pre).lastCode = some 0x1F →
        sc_read_until_complete_collect (readerRun sc_clear_rx pre) post =
          (readerRun sc_clear_rx pre).buffer) ∧
    (∀ (pre : Bytes) (b : Nat), b ∈ (readerRun sc_clear_rx pre).buffer →
        isCompletionByte b = false) := by
  refine ⟨?_, ?_, ?_, ?_⟩
  · intro data rest h
    have := collectLoop_data_before_1F data sc_clear_rx rest h (by simp [sc_clear_rx])
    simpa [sc_read_until_complete_collect, sc_clear_rx] using this
  · intro events h
    have := collectLoop_no_1F events sc_clear_rx h (by simp [sc_clear_rx])
    simpa [sc_read_until_complete_collect, sc_clear_rx] using this
  · intro pre post h
    simp [sc_read_until_complete_collect, h]
  · intro pre b hb
    exact readerRun_buffer_no_completion pre sc_clear_rx (by simp [sc_clear_rx]) b hb

/-- C6 witness: concrete event streams — data then 0x1F returns the data; a
lone 0x87 stream drains everything; a pre-entry 0x1F is honored. -/
theorem C6_collect_semantics_witness :
    sc_read_until_complete_collect sc_clear_rx ([0x41, 0x42] ++ 0x1F :: [0x43]) =
      [0x41, 0x42] ∧
    sc_read_until_complete_collect sc_clear_rx [0x41, 0x87, 0x42] = [0x41, 0x42] ∧
    sc_read_until_complete_collect (readerRun sc_clear_rx [0x41, 0x1F]) [0x43] =
      [0x41] :=
  ⟨C6_collect_semantics.1 [0x41, 0x42] [0x43] (by decide),
   by
     have h := C6_collect_semantics.2.1 [0x41, 0x87, 0x42] (by decide)
     simpa using h,
   by
     have h := C6_collect_semantics.2.2.1 [0x41, 0x1F] [0x43] (by decide)
     simpa using h⟩

/-! ## Claim C2 and C9 theorems -/

/-- C2: every CR-terminated command frame is claimed to have even length, via
an LF inserted before the final CR when the encoded payload is odd.  The HOME
builder in `controller.py` produces `b"%H\r"` — three bytes, odd, no LF
inserted: `controller.py`'s `ensure_even_before_cr` re-appends the same CR in
its odd branch and thus changes nothing, contradicting its own docstring and
the `v2_controller.py` implementation, which maps the same payload to
`b"%H\n\r"` (four bytes, even, LF before CR). -/
theorem C2_even_before_cr_not_applied :
    Controller.sc_build_home = .ok [37, 72, 13] ∧
    ([37, 72, 13] : Bytes).length % 2 = 1 ∧
    Controller.ensure_even_before_cr [37, 72, 13] = [37, 72, 13] ∧
    V2.ensure_even_before_cr [37, 72, 13] = [37, 72, 10, 13] :=
  ⟨rfl, rfl, rfl, rfl⟩

/-- C9 counterexample: `calculate_crc` on `{0x01,0x03,0x00,0x81,0x00,0x08}`
does not return the two bytes `{0x15,0xC0}` stated by the claim. -/
theorem C9_crc_not_15C0 :
    calculate_crc [0x01, 0x03, 0x00, 0x81, 0x00, 0x08] ≠ [0x15, 0xC0] := by
  intro h
  have : (calculate_crc [0x01, 0x03, 0x00, 0x81, 0x00, 0x08]).headI = 0x15 := by
    rw [h]; rfl
  revert this
  set_option maxRecDepth 10000 in decide

/-- C9 amended: `calculate_crc` (CRC16, polynomial 0xA001, initial 0xFFFF,
little-endian emit) maps `{0x01,0x03,0x00,0x81,0x00,0x08}` to `{0x14,0x24}`. -/
theorem C9_crc_value :
    calculate_crc [0x01, 0x03, 0x00, 0x81, 0x00, 0x08] = [0x14, 0x24] := by
  set_option maxRecDepth 10000 in decide

end Vm2030

